import Mathlib

/-!
Shallow embedding of the PyAntiSpam decision pipeline and continuous-learning
loop (feature extraction, ML classifier policy layer, whitelist/blacklist,
LLM-result cache with user-feedback overrides, feedback processing), together
with theorems settling the specification claims.

External library calls of the Python source (`re`, `math.log2`,
`datetime` parsing/arithmetic, `hashlib.md5`, scikit-learn) are modelled as
parameters: they are deterministic functions supplied by the environment, so
every theorem quantifies over them (or fixes a concrete instance for
counterexamples and witnesses).
-/

set_option maxRecDepth 8000

set_option allowUnsafeReducibility true

attribute [local semireducible] Rat.mul Rat.add Rat.sub Rat.div Rat.inv Rat.ofScientific

namespace PyAntiSpam

/-! ## Python string/list primitives -/

/-- Substring occurrence on character lists (a prefix match at some
position). -/
def listInfix (needle : List Char) : List Char → Bool
  | [] => needle.isEmpty
  | c :: rest => needle.isPrefixOf (c :: rest) || listInfix needle rest

/-- Python `sub in s` (substring containment; the empty string is in every
string). -/
def pyIn (sub s : String) : Bool :=
  listInfix sub.data s.data

/-- Count occurrences of a character in a string (Python `s.count(c)` for a
single-character needle). -/
def charCount (c : Char) (s : String) : Nat :=
  s.data.countP (· = c)

/-- Auxiliary worker for `countSubstr`: scans the haystack left to right and
skips past each non-overlapping match, as Python `str.count` does (the fuel
argument bounds the scan by the haystack length). -/
def countSubstrAux (needle : List Char) : Nat → List Char → Nat
  | 0, _ => 0
  | _, [] => 0
  | fuel + 1, c :: rest =>
    if needle.isPrefixOf (c :: rest) then
      1 + countSubstrAux needle fuel (rest.drop (needle.length - 1))
    else
      countSubstrAux needle fuel rest

/-- Python `s.count(sub)`: number of non-overlapping occurrences of `sub`
in `s` (for the empty needle Python returns `len(s) + 1`). -/
def countSubstr (hay needle : String) : Nat :=
  if needle.data = [] then hay.data.length + 1
  else countSubstrAux needle.data hay.data.length hay.data

/-- Worker for `pyWords`: accumulates the current word (reversed). -/
def pyWordsAux (cur : List Char) : List Char → List String
  | [] => if cur.isEmpty then [] else [String.mk cur.reverse]
  | c :: rest =>
    if c.isWhitespace then
      if cur.isEmpty then pyWordsAux [] rest
      else String.mk cur.reverse :: pyWordsAux [] rest
    else pyWordsAux (c :: cur) rest

/-- Python `s.split()` (split on runs of whitespace, dropping empties). -/
def pyWords (s : String) : List String :=
  pyWordsAux [] s.data

/-- Worker for `splitChar`. -/
def splitCharAux (sep : Char) (cur : List Char) : List Char → List String
  | [] => [String.mk cur.reverse]
  | c :: rest =>
    if c = sep then String.mk cur.reverse :: splitCharAux sep [] rest
    else splitCharAux sep (c :: cur) rest

/-- Python `s.split(sep)` for a one-character separator (keeps empties,
always nonempty). -/
def splitChar (s : String) (sep : Char) : List String :=
  splitCharAux sep [] s.data

/-- Python `s.split(sep)[-1]` for a one-character separator. -/
def pySplitLast (s : String) (sep : Char) : String :=
  (splitChar s sep).getLastD s

/-- Python `s.split(sep)[0]` for a one-character separator. -/
def pySplitFirst (s : String) (sep : Char) : String :=
  (splitChar s sep).headD s

/-- Python `s.strip(c)`: remove the character from both ends. -/
def pyStripChar (s : String) (c : Char) : String :=
  ⟨((s.data.dropWhile (· = c)).reverse.dropWhile (· = c)).reverse⟩

/-- Python `s.lower()` (ASCII lowering, as the source only compares ASCII
markers). -/
def pyLower (s : String) : String :=
  ⟨s.data.map Char.toLower⟩

/-- Python `s[:n]`. -/
def pyTake (s : String) (n : Nat) : String :=
  ⟨s.data.take n⟩

/-- Python `s.startswith(p)`. -/
def pyStartsWith (s p : String) : Bool :=
  p.data.isPrefixOf s.data

/-- Python `s.endswith(p)`. -/
def pyEndsWith (s p : String) : Bool :=
  p.data.reverse.isPrefixOf s.data.reverse

/-- Python `sep.join(l)`. -/
def pyJoin (sep : String) : List String → String
  | [] => ""
  | [x] => x
  | x :: y :: xs => x ++ sep ++ pyJoin sep (y :: xs)

/-- Worker for `pyReplace` (fuel bounds the scan). -/
def pyReplaceAux (needle repl : List Char) : Nat → List Char → List Char
  | 0, l => l
  | _, [] => []
  | fuel + 1, c :: rest =>
    if needle.isPrefixOf (c :: rest) then
      repl ++ pyReplaceAux needle repl fuel (rest.drop (needle.length - 1))
    else c :: pyReplaceAux needle repl fuel rest

/-- Python `s.replace(old, new)` for a nonempty `old` (all non-overlapping
occurrences). -/
def pyReplace (s old new : String) : String :=
  if old.data = [] then s
  else ⟨pyReplaceAux old.data new.data s.data.length s.data⟩

/-- First-occurrence list of the distinct elements of a list (the key order of
a Python `collections.Counter`). -/
def distinctKeep : List String → List String
  | l => l.foldl (fun acc w => if w ∈ acc then acc else acc ++ [w]) []

/-- Python dict assignment `d[k] = v` on an association list: replaces the
value of an existing key in place, otherwise appends. -/
def dictInsert {α : Type} (d : List (String × α)) (k : String) (v : α) :
    List (String × α) :=
  if d.any (fun p => p.1 = k) then
    d.map (fun p => if p.1 = k then (k, v) else p)
  else
    d ++ [(k, v)]

/-! ## Data model -/

/-- A raw header value: a single string or a multi-valued list. -/
inductive HVal where
  | str (s : String)
  | list (l : List String)
deriving DecidableEq, Repr

/-- A timestamp-field value (the email_data timestamp or date entry):
Python permits an ISO string or a numeric epoch value. -/
inductive TsVal where
  | str (s : String)
  | num (q : ℚ)
deriving DecidableEq, Repr

/-- Python truthiness of a timestamp-field value. -/
def tsTruthy : TsVal → Bool
  | .str s => s ≠ ""
  | .num q => q ≠ 0

/-- Python `a or b` on optional timestamp values. -/
def pyOrTs (a b : Option TsVal) : Option TsVal :=
  match a with
  | some t => if tsTruthy t then some t else b
  | none => b

/-- The result of Python datetime decomposition: the fields the extractor
reads (`dt.hour`, `dt.weekday()`). -/
structure PyDateTime where
  hour : Nat
  weekday : Nat
deriving DecidableEq, Repr

/-- One email record as consumed by the pipeline (`email_data` dict).
`none` on an optional field models a missing key. -/
structure EmailData where
  sender_email : String := ""
  sender_domain : String := ""
  subject : String := ""
  body : Option String := none
  text_content : String := ""
  raw_headers : Option (List (String × HVal)) := none
  timestamp : Option TsVal := none
  date : Option TsVal := none
  account_name : String := ""
deriving DecidableEq, Repr

/-- Aggregate feedback record for one sender
(`sender_feedback_history.json` entry). -/
structure SenderStats where
  spam_count : Nat := 0
  ham_count : Nat := 0
  first_seen : Option String := none
deriving DecidableEq, Repr

/-- The sender-history snapshot obtained from `_load_sender_history_cached`. -/
abbrev SenderHistory := List (String × SenderStats)

/-- Deterministic runtime primitives the Python source delegates to its
standard library (`re`, `math`, `datetime`).  Each is a pure function of its
arguments; theorems about the extractor quantify over this structure. -/
structure PyPrims where
  /-- Source: `len(re.findall(pattern, text))` together with the matched strings. -/
  reFindAll : String → String → List String
  /-- Source: `re.search(pattern, text, re.IGNORECASE) is not None`. -/
  reSearchI : String → String → Bool
  /-- Source: `re.search(pattern, text)` returning group 1 when it matches. -/
  reFirstGroup : String → String → Option String
  /-- Source: `math.log2`. -/
  log2 : ℚ → ℚ
  /-- Source: `datetime.fromisoformat`, `none` when it raises. -/
  parseIso : String → Option PyDateTime
  /-- Source: `datetime.fromtimestamp`. -/
  fromTimestamp : ℚ → PyDateTime
  /-- Source: `(a - b).days` for two datetimes. -/
  daysBetween : PyDateTime → PyDateTime → Int
  /-- Python float formatting of a value to two decimal places. -/
  format2 : ℚ → String

/-- A feature dictionary: insertion-ordered string-keyed map, as built by
`FeatureExtractor.extract_features`. -/
abbrev Features := List (String × ℚ)

/-- Python `features.get(name, default)`. -/
def featGet (d : Features) (k : String) (dflt : ℚ) : ℚ :=
  (d.lookup k).getD dflt

/-! ## Fingerprints

`EmailProcessor._get_email_fingerprint` and
`FeedbackProcessor._compute_email_fingerprint` both hash
`sender_email + subject + body[:200]` with MD5; the digest function itself is
an external primitive and is passed as a parameter `md5`. -/

/-- Source: `EmailProcessor._get_email_fingerprint`. -/
def get_email_fingerprint (md5 : String → String) (e : EmailData) : String :=
  md5 (e.sender_email ++ e.subject ++ pyTake (e.body.getD "") 200)

/-- Source: `FeedbackProcessor._compute_email_fingerprint`. -/
def compute_email_fingerprint (md5 : String → String) (e : EmailData) : String :=
  md5 (e.sender_email ++ e.subject ++ pyTake (e.body.getD "") 200)

/-! ## FeatureExtractor -/

/-- Source: `FeatureExtractor.spam_keywords` (insertion order of the Python dict). -/
def spam_keywords : List (String × List String) :=
  [("urgency", ["urgent", "immediate", "act now", "limited time", "expires", "deadline"]),
   ("money", ["free", "money", "cash", "prize", "winner", "lottery", "million", "reward"]),
   ("suspicious", ["click here", "verify", "confirm", "suspended", "locked", "update"]),
   ("phishing", ["login", "password", "account", "security", "verify", "suspended"]),
   ("marketing", ["offer", "deal", "discount", "sale", "promotion", "limited", "subscribe",
      "newsletter", "unsubscribe", "campaign", "advertising", "special offer",
      "best price", "save money", "exclusive", "voucher", "coupon", "clearance",
      "black friday", "cyber monday", "flash sale", "promotional", "marketing",
      "commercial", "advertisement", "sponsor", "affiliate", "bulk", "blast"]),
   ("scam", ["nigerian", "inheritance", "beneficiary", "transfer", "funds"])]

/-- Source: `FeatureExtractor.suspicious_tlds`. -/
def suspicious_tlds : List String :=
  [".tk", ".ml", ".ga", ".cf", ".top", ".click", ".download"]

/-- The Python constant string.punctuation. -/
def string_punctuation : String :=
  "!\"#$%&\x27()*+,-./:;<=>?@[\\]^_\x60\x7b|\x7d~"

/-- The content text used throughout `extract_features`: the body field
when it is not None, else the text_content field (defaulting to empty). -/
def contentText (e : EmailData) : String :=
  match e.body with
  | some b => b
  | none => e.text_content

/-- Source: `FeatureExtractor._extract_metadata_features`. -/
def extract_metadata_features (e : EmailData) : Features :=
  let subject := e.subject
  let content := contentText e
  let subject_length : ℚ := subject.length
  let content_length : ℚ := content.length
  [("subject_length", subject_length),
   ("subject_word_count", ((pyWords subject).length : ℚ)),
   ("content_length", content_length),
   ("content_word_count", ((pyWords content).length : ℚ)),
   ("subject_to_content_ratio",
      if content_length > 0 then subject_length / content_length else 0)]

/-- Source: `FeatureExtractor._extract_subject_features`. -/
def extract_subject_features (subject : String) : Features :=
  let subject_lower := pyLower subject
  [("subject_caps_ratio",
      if subject.length > 0 then
        ((subject.toList.countP Char.isUpper : ℚ)) / (subject.length : ℚ)
      else 0),
   ("subject_exclamation_count", (charCount '!' subject : ℚ)),
   ("subject_question_count", (charCount '?' subject : ℚ))]
  ++ spam_keywords.map (fun p =>
      ("subject_" ++ p.1 ++ "_keywords",
       ((p.2.countP (fun k => pyIn k subject_lower) : ℚ))))
  ++ [("subject_special_chars",
        ((subject.toList.countP (fun c => string_punctuation.toList.contains c) : ℚ))),
      ("subject_has_re",
        if pyStartsWith subject_lower "re:" ∨ pyStartsWith subject_lower "fwd:" then (1 : ℚ) else 0),
      ("subject_has_brackets",
        if subject.toList.contains '[' ∨ subject.toList.contains ']' then (1 : ℚ) else 0)]

/-- The URL regex of `_extract_content_features`. -/
def urlPattern : String :=
  "https?://[^\\s<>\"\x7b\x7d|\\\\^\x60[\\]]+|www\\.[^\\s<>\"\x7b\x7d|\\\\^\x60[\\]]+"

/-- The email-address regex of `_extract_content_features`. -/
def emailPattern : String :=
  "\\b[A-Za-z0-9._%+-]+@[A-Za-z0-9.-]+\\.[A-Z|a-z]\x7b2,\x7d\\b"

/-- The phone-number regex of `_extract_content_features`. -/
def phonePattern : String :=
  "(\\+?1[-.\\s]?)?\\(?[0-9]\x7b3\x7d\\)?[-.\\s]?[0-9]\x7b3\x7d[-.\\s]?[0-9]\x7b4\x7d"

/-- Source: `FeatureExtractor._extract_newsletter_features`. -/
def extract_newsletter_features (prims : PyPrims) (content : String) : Features :=
  let content_lower := pyLower content
  let tracking_patterns : List String :=
    ["utm_source=", "utm_medium=", "utm_campaign=", "utm_content=",
     "tracking=", "track=", "source=", "campaign="]
  let newsletter_phrases : List String :=
    ["unsubscribe", "opt out", "manage preferences", "email preferences",
     "view in browser", "web version", "forward to friend", "share this",
     "newsletter", "mailing list", "subscription", "opt-in"]
  let image_patterns : List String :=
    ["<img[^>]*>", "src=[\x27\"][^>]*[\x27\"]", "alt=[\x27\"][^>]*[\x27\"]",
     "\\[image\\]", "\\[logo\\]", "\\[banner\\]"]
  let social_patterns : List String :=
    ["facebook\\.com", "twitter\\.com", "linkedin\\.com", "instagram\\.com",
     "youtube\\.com", "social", "follow us"]
  let cta_phrases : List String :=
    ["buy now", "shop now", "order now", "download now", "get started",
     "sign up", "register", "learn more", "read more", "click here"]
  let price_patterns : List String :=
    ["\\d+%\\s*off", "\\$\\d+", "€\\d+", "£\\d+", "price", "cost",
     "save \\$", "discount", "% discount"]
  [("content_tracking_urls",
      ((tracking_patterns.map (fun p => (prims.reFindAll p content_lower).length)).sum : ℚ)),
   ("content_newsletter_phrases",
      ((newsletter_phrases.map (fun p => countSubstr content_lower p)).sum : ℚ)),
   ("content_image_count",
      ((image_patterns.map (fun p => (prims.reFindAll p content_lower).length)).sum : ℚ)),
   ("content_social_links",
      ((social_patterns.map (fun p => (prims.reFindAll p content_lower).length)).sum : ℚ)),
   ("content_cta_count",
      ((cta_phrases.map (fun p => countSubstr content_lower p)).sum : ℚ)),
   ("content_price_indicators",
      ((price_patterns.map (fun p => (prims.reFindAll p content_lower).length)).sum : ℚ))]

/-- Source: `FeatureExtractor._extract_content_features`. -/
def extract_content_features (prims : PyPrims) (content : String) : Features :=
  let content_lower := pyLower content
  if content = "" then
    (["caps_ratio", "exclamation_count", "url_count", "email_count",
      "phone_count", "number_count", "line_count", "avg_line_length"]
      ++ spam_keywords.map (fun p => p.1 ++ "_keywords")).map
      (fun k => ("content_" ++ k, (0 : ℚ)))
  else
    let urls := prims.reFindAll urlPattern content_lower
    let lines := splitChar content '\n'
    [("content_caps_ratio",
        ((content.toList.countP Char.isUpper : ℚ)) / (content.length : ℚ)),
     ("content_exclamation_count", (charCount '!' content : ℚ)),
     ("content_question_count", (charCount '?' content : ℚ)),
     ("content_url_count", (urls.length : ℚ)),
     ("content_suspicious_tld_count",
        ((urls.countP (fun u => suspicious_tlds.any (fun t => pyIn t u)) : ℚ))),
     ("content_email_count", ((prims.reFindAll emailPattern content).length : ℚ)),
     ("content_phone_count", ((prims.reFindAll phonePattern content).length : ℚ)),
     ("content_number_count", ((prims.reFindAll "\\b\\d+\\b" content).length : ℚ)),
     ("content_line_count", (lines.length : ℚ)),
     ("content_avg_line_length",
        if lines ≠ [] then ((lines.map String.length).sum : ℚ) / (lines.length : ℚ) else 0)]
    ++ spam_keywords.map (fun p =>
        ("content_" ++ p.1 ++ "_keywords",
         ((p.2.map (fun k => countSubstr content_lower k)).sum : ℚ)))
    ++ [("content_html_tag_count", ((prims.reFindAll "<[^>]+>" content).length : ℚ))]
    ++ extract_newsletter_features prims content

/-- Source: `hget` helper of `_extract_header_features`. -/
def hget (headers : List (String × HVal)) (name : String) : String :=
  match headers.lookup name with
  | none => ""
  | some (.str s) => s
  | some (.list l) => pyJoin "; " l

/-- Source: `FeatureExtractor._extract_header_features` (the headers object is a
dict; a falsy raw_headers value becomes the empty dict, as the source
computes headers as raw_headers or-else the empty dict). -/
def extract_header_features (prims : PyPrims) (e : EmailData) : Features :=
  let headers := e.raw_headers.getD []
  let ar := pyLower (hget headers "Authentication-Results")
  let dkim_domain := pyLower ((prims.reFirstGroup "d=([^;\\s]+)" ar).getD "")
  let from_domain := pyLower e.sender_domain
  let reply_to := pyLower (hget headers "Reply-To")
  let from_addr := pyLower e.sender_email
  let msg_id := hget headers "Message-ID"
  let msg_dom := if pyIn "@" msg_id then pyStripChar (pySplitLast msg_id '@') '>' else ""
  let hops : ℚ :=
    match headers.lookup "Received" with
    | some (.list l) => (l.length : ℚ)
    | some (.str s) => if s ≠ "" then (charCount ';' s : ℚ) else 1
    | none => 0
  [("auth_spf_pass", if pyIn "spf=pass" ar then (1 : ℚ) else 0),
   ("auth_dkim_pass", if pyIn "dkim=pass" ar then (1 : ℚ) else 0),
   ("auth_dmarc_pass", if pyIn "dmarc=pass" ar then (1 : ℚ) else 0),
   ("from_dkim_domain_match",
      if dkim_domain ≠ "" ∧ (dkim_domain = from_domain
          ∨ pyEndsWith dkim_domain ("." ++ from_domain)
          ∨ pyEndsWith from_domain ("." ++ dkim_domain)) then (1 : ℚ) else 0),
   ("has_list_unsubscribe", if hget headers "List-Unsubscribe" ≠ "" then (1 : ℚ) else 0),
   ("replyto_from_mismatch",
      if reply_to ≠ "" ∧ ¬ (pyIn reply_to from_addr = true) then (1 : ℚ) else 0),
   ("message_id_domain_match",
      if msg_dom ≠ "" ∧ pyEndsWith (pyLower msg_dom) from_domain then (1 : ℚ) else 0),
   ("received_hops", hops)]

/-- Source: `FeatureExtractor._extract_sender_features`. -/
def extract_sender_features (e : EmailData) : Features :=
  let sender_email := pyLower e.sender_email
  let sender_domain := pyLower e.sender_domain
  let locTriple : ℚ × ℚ × ℚ :=
    if pyIn "@" sender_email then
      let local_part := pySplitFirst sender_email '@'
      ((local_part.length : ℚ),
       if local_part.toList.any Char.isDigit then 1 else 0,
       if local_part.toList.any (fun c => "._-+".toList.contains c) then 1 else 0)
    else (0, 0, 0)
  let legitimate_domains : List String :=
    ["gmail.com", "yahoo.com", "hotmail.com", "outlook.com", "aol.com"]
  [("sender_suspicious_tld",
      if suspicious_tlds.any (fun t => pyEndsWith sender_domain t) then (1 : ℚ) else 0),
   ("sender_local_length", locTriple.1),
   ("sender_has_numbers", locTriple.2.1),
   ("sender_has_special_chars", locTriple.2.2),
   ("sender_domain_length", (sender_domain.length : ℚ)),
   ("sender_legitimate_domain",
      if legitimate_domains.contains sender_domain then (1 : ℚ) else 0)]

/-- Source: `FeatureExtractor._extract_sender_history_features` (the snapshot returned
by `_load_sender_history_cached` is the `hist` argument). -/
def extract_sender_history_features (prims : PyPrims) (e : EmailData)
    (now : PyDateTime) (hist : SenderHistory) : Features :=
  let sender_email := pyLower e.sender_email
  match hist.lookup sender_email with
  | some stats =>
    let spam_count := stats.spam_count
    let ham_count := stats.ham_count
    let total := spam_count + ham_count
    let days : ℚ :=
      match stats.first_seen with
      | some fs =>
        if fs ≠ "" then
          match prims.parseIso fs with
          | some d => ((prims.daysBetween now d : ℤ) : ℚ)
          | none => 0
        else 0
      | none => 0
    [("sender_spam_ratio", if total > 0 then (spam_count : ℚ) / (total : ℚ) else 0),
     ("sender_total_feedbacks", (total : ℚ)),
     ("sender_days_since_first", days),
     ("sender_is_recurring_spammer", if spam_count ≥ 3 then (1 : ℚ) else 0),
     ("sender_is_recurring_ham", if ham_count ≥ 3 then (1 : ℚ) else 0)]
  | none =>
    [("sender_spam_ratio", 0), ("sender_total_feedbacks", 0),
     ("sender_days_since_first", 0), ("sender_is_recurring_spammer", 0),
     ("sender_is_recurring_ham", 0)]

/-- Source: `FeatureExtractor._extract_temporal_features`; `now` is the value
`datetime.now()` would produce during the call. -/
def extract_temporal_features (prims : PyPrims) (e : EmailData)
    (now : PyDateTime) : Features :=
  let dt : PyDateTime :=
    match pyOrTs e.timestamp e.date with
    | some t =>
      if tsTruthy t then
        match t with
        | .str s => (prims.parseIso (pyReplace s "Z" "+00:00")).getD now
        | .num q => prims.fromTimestamp q
      else now
    | none => now
  [("temporal_hour_of_day", (dt.hour : ℚ)),
   ("temporal_day_of_week", (dt.weekday : ℚ)),
   ("temporal_is_weekend", if dt.weekday ≥ 5 then (1 : ℚ) else 0),
   ("temporal_is_night_time", if dt.hour ≥ 22 ∨ dt.hour < 6 then (1 : ℚ) else 0),
   ("temporal_is_business_hours",
      if dt.weekday < 5 ∧ 9 ≤ dt.hour ∧ dt.hour < 17 then (1 : ℚ) else 0)]

/-- Source: `FeatureExtractor._extract_advanced_text_features`. -/
def extract_advanced_text_features (prims : PyPrims)
    (subject content : String) : Features :=
  let combined := pyLower (subject ++ " " ++ content)
  let words := pyWords combined
  if words = [] then
    [("text_entropy", 0), ("text_unique_word_ratio", 0),
     ("text_avg_word_length", 0), ("text_lexical_diversity", 0),
     ("text_repeated_words", 0)]
  else
    let total_words : ℚ := words.length
    let distinct := distinctKeep words
    let counts := distinct.map (fun w => words.countP (· = w))
    let entropy := counts.foldl (fun acc c =>
      let prob : ℚ := (c : ℚ) / total_words
      if prob > 0 then acc - prob * prims.log2 prob else acc) 0
    [("text_entropy", entropy),
     ("text_unique_word_ratio",
        if total_words > 0 then (distinct.length : ℚ) / total_words else 0),
     ("text_avg_word_length",
        if total_words > 0 then ((words.map String.length).sum : ℚ) / total_words else 0),
     ("text_lexical_diversity",
        if total_words > 0 then (distinct.length : ℚ) / total_words else 0),
     ("text_repeated_words", (counts.countP (· > 3) : ℚ))]

/-- The URL regex of `_extract_rich_content_features` (its source text keeps a
backslash before the double quote). -/
def richUrlPattern : String :=
  "https?://[^\\s<>\\\"\x7b\x7d|\\\\^\x60[\\]]+"

/-- Source: `FeatureExtractor._extract_rich_content_features`. -/
def extract_rich_content_features (prims : PyPrims) (content : String) : Features :=
  if content = "" then
    [("rich_html_to_text_ratio", 0), ("rich_has_images", 0),
     ("rich_has_forms", 0), ("rich_has_scripts", 0), ("rich_link_density", 0)]
  else
    let html_tags := prims.reFindAll "<[^>]+>" content
    let html_length : ℚ := ((html_tags.map String.length).sum : ℚ)
    let url_count := (prims.reFindAll richUrlPattern content).length
    [("rich_html_to_text_ratio",
        if content.length > 0 then html_length / (content.length : ℚ) else 0),
     ("rich_has_images", if prims.reSearchI "<img[^>]*>" content then (1 : ℚ) else 0),
     ("rich_has_forms", if prims.reSearchI "<form[^>]*>" content then (1 : ℚ) else 0),
     ("rich_has_scripts", if prims.reSearchI "<script[^>]*>" content then (1 : ℚ) else 0),
     ("rich_link_density",
        if content.length > 0 then ((url_count : ℚ) * 100) / (content.length : ℚ) else 0)]

/-- Source: `FeatureExtractor._extract_interaction_features`. -/
def extract_interaction_features (features : Features) : Features :=
  let has_marketing := featGet features "content_marketing_keywords" 0 > 0
  let has_newsletter := featGet features "content_newsletter_phrases" 0 > 0
  let has_suspicious := featGet features "content_suspicious_keywords" 0 > 0
  let no_auth := featGet features "auth_spf_pass" 0 = 0
    ∧ featGet features "auth_dkim_pass" 0 = 0
    ∧ featGet features "auth_dmarc_pass" 0 = 0
  let has_urgency := featGet features "content_urgency_keywords" 0 > 0
  let has_money := featGet features "content_money_keywords" 0 > 0
  let is_spammer := featGet features "sender_is_recurring_spammer" 0 = 1
  let high_caps := featGet features "subject_caps_ratio" 0 > 0.5
  let many_exclamations := featGet features "subject_exclamation_count" 0 > 2
  [("interaction_marketing_newsletter",
      if has_marketing ∧ has_newsletter then (1 : ℚ) else 0),
   ("interaction_suspicious_no_auth",
      if has_suspicious ∧ no_auth then (1 : ℚ) else 0),
   ("interaction_urgency_money", if has_urgency ∧ has_money then (1 : ℚ) else 0),
   ("interaction_spammer_suspicious",
      if is_spammer ∧ has_suspicious then (1 : ℚ) else 0),
   ("interaction_shouting", if high_caps ∧ many_exclamations then (1 : ℚ) else 0)]

/-- The feature dict accumulated by `extract_features` just before the final
`_extract_interaction_features` update (successive `features.update` calls on
disjoint key sets). -/
def pre_interaction_features (prims : PyPrims) (e : EmailData)
    (now : PyDateTime) (hist : SenderHistory) : Features :=
  let content_text := contentText e
  extract_metadata_features e ++
  extract_subject_features e.subject ++
  extract_content_features prims content_text ++
  extract_sender_features e ++
  extract_header_features prims e ++
  extract_sender_history_features prims e now hist ++
  extract_temporal_features prims e now ++
  extract_advanced_text_features prims e.subject content_text ++
  extract_rich_content_features prims content_text

/-- Source: `FeatureExtractor.extract_features`: the program state it reads
(`datetime.now()` and the sender-history snapshot) is passed explicitly. -/
def extract_features (prims : PyPrims) (e : EmailData) (now : PyDateTime)
    (hist : SenderHistory) : Features :=
  let fs := pre_interaction_features prims e now hist
  fs ++ extract_interaction_features fs

/-- Lexicographic string comparison on code points (Python `<=` on str). -/
def strLeData : List Char → List Char → Bool
  | [], _ => true
  | _ :: _, [] => false
  | a :: as, b :: bs => if a = b then strLeData as bs else decide (a < b)

/-- Stable insertion into a sorted string list. -/
def insertSorted (x : String) : List String → List String
  | [] => [x]
  | y :: ys => if strLeData x.data y.data then x :: y :: ys else y :: insertSorted x ys

/-- Source: `sorted(...)` on strings (lexicographic, as Python compares code
points). -/
def sortStrings (l : List String) : List String :=
  l.foldr insertSorted []

/-- Source: `FeatureExtractor.get_feature_names` (the lexicographically sorted full
feature-name list). -/
def get_feature_names : List String :=
  sortStrings (["subject_length", "subject_word_count", "content_length",
    "content_word_count", "subject_to_content_ratio",
    "subject_caps_ratio", "subject_exclamation_count", "subject_question_count",
    "subject_special_chars", "subject_has_re", "subject_has_brackets",
    "content_caps_ratio", "content_exclamation_count", "content_question_count",
    "content_url_count", "content_suspicious_tld_count", "content_email_count",
    "content_phone_count", "content_number_count", "content_line_count",
    "content_avg_line_length", "content_html_tag_count",
    "sender_suspicious_tld", "sender_local_length", "sender_has_numbers",
    "sender_has_special_chars", "sender_domain_length", "sender_legitimate_domain"]
   ++ spam_keywords.foldl (fun acc p =>
        acc ++ ["subject_" ++ p.1 ++ "_keywords", "content_" ++ p.1 ++ "_keywords"]) []
   ++ ["auth_spf_pass", "auth_dkim_pass", "auth_dmarc_pass",
       "from_dkim_domain_match", "has_list_unsubscribe",
       "replyto_from_mismatch", "message_id_domain_match", "received_hops"]
   ++ ["content_tracking_urls", "content_newsletter_phrases", "content_image_count",
       "content_social_links", "content_cta_count", "content_price_indicators"]
   ++ ["sender_spam_ratio", "sender_total_feedbacks", "sender_days_since_first",
       "sender_is_recurring_spammer", "sender_is_recurring_ham"]
   ++ ["temporal_hour_of_day", "temporal_day_of_week", "temporal_is_weekend",
       "temporal_is_night_time", "temporal_is_business_hours"]
   ++ ["text_entropy", "text_unique_word_ratio", "text_avg_word_length",
       "text_lexical_diversity", "text_repeated_words"]
   ++ ["rich_html_to_text_ratio", "rich_has_images", "rich_has_forms",
       "rich_has_scripts", "rich_link_density"]
   ++ ["interaction_marketing_newsletter", "interaction_suspicious_no_auth",
       "interaction_urgency_money", "interaction_spammer_suspicious",
       "interaction_shouting"])

/-! ## Decisions and configuration -/

/-- A classification decision dict `{action, reason, confidence, method}`;
`override` models the optional `"override"` key (`.get("override", False)`). -/
structure Decision where
  action : String
  reason : String
  confidence : ℚ
  method : String
  override : Bool := false
deriving DecidableEq, Repr

/-- The configuration keys the pipeline and classifier read, with the
defaults the source supplies at each `config.get` call. -/
structure Config where
  /-- Source: `detection.ml_confidence_threshold` -/
  ml_confidence_threshold : ℚ := 0.8
  /-- Source: `detection.use_llm_for_uncertain` -/
  use_llm_for_uncertain : Bool := true
  /-- Source: `detection.classify_marketing_as_spam` -/
  classify_marketing_as_spam : Bool := true
  /-- Source: `detection.marketing_confidence_threshold` -/
  marketing_confidence_threshold : ℚ := 0.6
  /-- Source: `llm.cache.enabled` -/
  cache_enabled : Bool := true
  /-- Source: `llm.cache.max_age_days` -/
  cache_max_age_days : ℚ := 30
deriving DecidableEq, Repr

/-! ## MLClassifier -/

/-- An opaque fitted ensemble model (the pickled RandomForest). -/
structure MLModel where
  id : Nat := 0
deriving DecidableEq, Repr

/-- A StandardScaler; the only attribute the source reads is
`n_features_in_` (absent before fitting). -/
structure Scaler where
  n_features_in_ : Option Nat := none
deriving DecidableEq, Repr

/-- One training sample `{email_data, is_spam, source?}`. -/
structure TrainingSample where
  email_data : EmailData
  is_spam : Bool
  source : Option String := none
deriving DecidableEq, Repr

/-- The weight statistics reported by `train_with_samples`. -/
structure WeightStats where
  min : ℚ
  max : ℚ
  mean : ℚ
  total : ℚ
deriving DecidableEq, Repr

/-- The result dict of `train_with_samples` (keys absent in a branch are
`none`). -/
structure TrainResult where
  success : Bool
  error : Option String := none
  accuracy : Option ℚ := none
  samples_count : Option Nat := none
  spam_count : Option Nat := none
  ham_count : Option Nat := none
  weight_stats : Option WeightStats := none
deriving DecidableEq, Repr

/-- The state of an `MLClassifier` instance, including the persisted
artifacts of its `data/` directory (model, scaler, feature-name list,
training data). -/
structure MLState where
  sklearn_available : Bool := true
  model : Option MLModel := none
  scaler : Scaler := {}
  feature_names : List String := get_feature_names
  model_trained : Bool := false
  /-- Source: `data/spam_model.pkl` -/
  saved_model : Option MLModel := none
  /-- Source: `data/feature_scaler.pkl` -/
  saved_scaler : Option Scaler := none
  /-- Source: `data/feature_names.json` -/
  saved_feature_names : Option (List String) := none
  /-- Source: `data/training_data.json` -/
  saved_training_data : Option (List TrainingSample) := none
deriving DecidableEq, Repr

/-- The scikit-learn operations the classifier delegates to, abstracted as
deterministic functions; `Except.error` models a raised exception. -/
structure SkOracle where
  /-- the fit/evaluate unit of `train_with_samples` after sample preparation:
  train/test split, scaler fit, weighted RandomForest fit, accuracy scoring;
  receives `(feature vector, label, sample weight)` per sample. -/
  fitEval : List (List ℚ × Nat × ℚ) → Except String (Scaler × MLModel × ℚ)
  /-- Source: `self.scaler.transform([v])[0]` -/
  transform : Scaler → List ℚ → Except String (List ℚ)
  /-- Source: `self.model.predict(v)[0]` -/
  predict : Option MLModel → List ℚ → Option Nat
  /-- Source: `self.model.predict_proba(v)[0]` -/
  predictProba : Option MLModel → List ℚ → Option (List ℚ)

/-- Source: `MLClassifier._features_to_vector`. -/
def features_to_vector (feature_names : List String) (features : Features) :
    List ℚ :=
  feature_names.map (fun n => featGet features n 0)

/-- Source: `MLClassifier._calculate_sample_weight`. -/
def calculate_sample_weight (sample : TrainingSample) (features : Features) : ℚ :=
  let base_weight : ℚ := if sample.source.getD "default" = "user_feedback" then 3.0 else 1.0
  let sender_total_feedbacks := featGet features "sender_total_feedbacks" 0
  let is_recurring := featGet features "sender_is_recurring_spammer" 0 = 1
    ∨ featGet features "sender_is_recurring_ham" 0 = 1
  if is_recurring ∨ sender_total_feedbacks ≥ 3 then 5.0
  else if sender_total_feedbacks ≥ 2 then base_weight * 1.5
  else base_weight

/-- Source: `MLClassifier._calculate_marketing_score`. -/
def calculate_marketing_score (features : Features) : ℚ :=
  let marketing_keywords := featGet features "content_marketing_keywords" 0
    + featGet features "subject_marketing_keywords" 0
  let s1 : ℚ := 0 + min (marketing_keywords * 0.15) 0.5
  let newsletter_phrases := featGet features "content_newsletter_phrases" 0
  let s2 := s1 + min (newsletter_phrases * 0.1) 0.3
  let tracking_urls := featGet features "content_tracking_urls" 0
  let s3 := s2 + min (tracking_urls * 0.2) 0.4
  let cta_count := featGet features "content_cta_count" 0
  let s4 := s3 + min (cta_count * 0.08) 0.3
  let price_indicators := featGet features "content_price_indicators" 0
  let s5 := s4 + min (price_indicators * 0.1) 0.2
  let social_links := featGet features "content_social_links" 0
  let s6 := s5 + min (social_links * 0.05) 0.15
  let html_tags := featGet features "content_html_tag_count" 0
  let s7 := if html_tags > 10 then s6 + 0.1 else s6
  let s8 := if featGet features "has_list_unsubscribe" 0 > 0 then s7 + 0.15 else s7
  min s8 1.0

/-- Source: `MLClassifier.train_with_samples`. -/
def train_with_samples (prims : PyPrims) (now : PyDateTime)
    (hist : SenderHistory) (oracle : SkOracle) (st : MLState)
    (samples : List TrainingSample) : TrainResult × MLState :=
  if st.sklearn_available = false then
    ({ success := false, error := some "scikit-learn not available" }, st)
  else if samples.length < 10 then
    ({ success := false, error := some "Need at least 10 samples for training" }, st)
  else
    let prepared := samples.map (fun s =>
      let features := extract_features prims s.email_data now hist
      (features_to_vector st.feature_names features,
       if s.is_spam then 1 else 0,
       calculate_sample_weight s features))
    match oracle.fitEval prepared with
    | .error msg => ({ success := false, error := some msg }, st)
    | .ok (scaler', model', accuracy) =>
      let sample_weights := prepared.map (fun t => t.2.2)
      let y := prepared.map (fun t => t.2.1)
      let weight_stats : WeightStats :=
        { min := sample_weights.foldl min (sample_weights.headD 0)
          max := sample_weights.foldl max (sample_weights.headD 0)
          mean := sample_weights.sum / (sample_weights.length : ℚ)
          total := sample_weights.sum }
      ({ success := true, accuracy := some accuracy,
         samples_count := some samples.length,
         spam_count := some y.sum,
         ham_count := some (y.length - y.sum),
         weight_stats := some weight_stats },
       { st with model := some model', scaler := scaler', model_trained := true,
                 saved_model := some model', saved_scaler := some scaler',
                 saved_feature_names := some st.feature_names,
                 saved_training_data := some samples })

/-- The built-in default samples of
`MLClassifier.create_default_training_data`: first spam sample. -/
def defaultSpamSample1 : TrainingSample where
  email_data :=
    { sender_email := "winner@lottery-scam.tk", sender_domain := "lottery-scam.tk",
      subject := "CONGRATULATIONS!!! You won $1,000,000 !!!",
      text_content := "Urgent! You have won the lottery! Click here now to claim your prize of $1,000,000. Act immediately before this offer expires!" }
  is_spam := true

/-- Second default spam sample. -/
def defaultSpamSample2 : TrainingSample where
  email_data :=
    { sender_email := "noreply@suspicious.click", sender_domain := "suspicious.click",
      subject := "Your account will be suspended - Verify NOW!",
      text_content := "Your account has been compromised. Click this link to verify your password and prevent suspension. Act now!" }
  is_spam := true

/-- Third default spam sample. -/
def defaultSpamSample3 : TrainingSample where
  email_data :=
    { sender_email := "prince@nigeria.com", sender_domain := "nigeria.com",
      subject := "Urgent Business Proposal - Millions Available",
      text_content := "Dear beneficiary, I am a prince with millions of dollars to transfer. I need your help to transfer funds. You will receive 30% of $10 million." }
  is_spam := true

/-- Fourth default spam sample. -/
def defaultSpamSample4 : TrainingSample where
  email_data :=
    { sender_email := "pharmacy123@cheap-meds.tk", sender_domain := "cheap-meds.tk",
      subject := "Cheap Viagra! 80% OFF!! Limited Time!!!",
      text_content := "Get cheap prescription drugs with no prescription needed! Viagra, Cialis, and more at 80% discount. Order now while supplies last!" }
  is_spam := true

/-- Fifth default spam sample. -/
def defaultSpamSample5 : TrainingSample where
  email_data :=
    { sender_email := "marketing@get-rich-quick.ml", sender_domain := "get-rich-quick.ml",
      subject := "Make $5000/month working from home!",
      text_content := "Amazing opportunity to make money from home! No experience required. Make $5000 per month guaranteed! Click here to start earning now!" }
  is_spam := true

/-- First default ham sample. -/
def defaultHamSample1 : TrainingSample where
  email_data :=
    { sender_email := "support@github.com", sender_domain := "github.com",
      subject := "Your pull request has been merged",
      text_content := "Hello, your pull request #123 has been successfully merged into the main branch. Thank you for your contribution!" }
  is_spam := false

/-- Second default ham sample. -/
def defaultHamSample2 : TrainingSample where
  email_data :=
    { sender_email := "notifications@linkedin.com", sender_domain := "linkedin.com",
      subject := "You have 3 new connections",
      text_content := "Hi there, you have 3 new connection requests on LinkedIn. View your pending invitations to connect with your network." }
  is_spam := false

/-- Third default ham sample. -/
def defaultHamSample3 : TrainingSample where
  email_data :=
    { sender_email := "receipts@amazon.com", sender_domain := "amazon.com",
      subject := "Your order has shipped",
      text_content := "Your order #123456789 has been shipped and is on its way. You can track your package using the tracking number provided." }
  is_spam := false

/-- Fourth default ham sample. -/
def defaultHamSample4 : TrainingSample where
  email_data :=
    { sender_email := "newsletter@company.com", sender_domain := "company.com",
      subject := "Monthly newsletter - Product updates",
      text_content := "Here are the latest updates from our team. We have released new features and improvements to our product. Read more about them here." }
  is_spam := false

/-- Fifth default ham sample. -/
def defaultHamSample5 : TrainingSample where
  email_data :=
    { sender_email := "team@calendar-app.com", sender_domain := "calendar-app.com",
      subject := "Reminder: Meeting tomorrow at 2 PM",
      text_content := "This is a reminder about your scheduled meeting tomorrow at 2:00 PM. Please let us know if you need to reschedule." }
  is_spam := false

/-- The concatenated default sample list (`samples.extend(spam_samples);
samples.extend(ham_samples)`). -/
def create_default_training_data : List TrainingSample :=
  [defaultSpamSample1, defaultSpamSample2, defaultSpamSample3,
   defaultSpamSample4, defaultSpamSample5,
   defaultHamSample1, defaultHamSample2, defaultHamSample3,
   defaultHamSample4, defaultHamSample5]

/-- Source: `MLClassifier.initialize_default_model`. -/
def init_default_model (prims : PyPrims) (now : PyDateTime)
    (hist : SenderHistory) (oracle : SkOracle) (st : MLState) :
    TrainResult × MLState :=
  if st.sklearn_available = false then
    ({ success := false, error := some "scikit-learn not available" }, st)
  else
    train_with_samples prims now hist oracle st create_default_training_data

/-- Source: `MLClassifier._load_model` (unpickling of present artifact files is
modelled as always succeeding; the feature-names side file is read when
present). -/
def load_model (prims : PyPrims) (now : PyDateTime) (hist : SenderHistory)
    (oracle : SkOracle) (st : MLState) : MLState :=
  if st.saved_model.isSome ∧ st.saved_scaler.isSome then
    let loaded : MLState :=
      { st with model := st.saved_model, scaler := st.saved_scaler.getD {} }
    let current_len := st.feature_names.length
    let scaler_len := (st.saved_scaler.getD {}).n_features_in_
    let saved_len := st.saved_feature_names.map List.length
    if (scaler_len ≠ none ∧ scaler_len ≠ some current_len)
        ∨ (saved_len ≠ none ∧ saved_len ≠ some current_len) then
      (init_default_model prims now hist oracle loaded).2
    else
      { loaded with model_trained := true }
  else
    (init_default_model prims now hist oracle st).2

/-- Source: `MLClassifier.__init__`: fresh in-memory state over the persisted
artifacts, then `_load_model` when scikit-learn is available. -/
def mk_ml_classifier (prims : PyPrims) (now : PyDateTime)
    (hist : SenderHistory) (oracle : SkOracle) (sklearn_available : Bool)
    (saved_model : Option MLModel) (saved_scaler : Option Scaler)
    (saved_feature_names : Option (List String))
    (saved_training_data : Option (List TrainingSample)) : MLState :=
  let st : MLState :=
    { sklearn_available := sklearn_available, model := none, scaler := {},
      feature_names := get_feature_names, model_trained := false,
      saved_model := saved_model, saved_scaler := saved_scaler,
      saved_feature_names := saved_feature_names,
      saved_training_data := saved_training_data }
  if sklearn_available then load_model prims now hist oracle st else st

/-- The fail-closed decision of `classify` for an unavailable/untrained
model. -/
def ml_unavailable_decision : Decision :=
  { action := "KEEP", reason := "ML model not available or trained",
    confidence := 0.5, method := "ml_unavailable" }

/-- The decision returned by the exception handler of `classify`. -/
def ml_error_decision (msg : String) : Decision :=
  { action := "KEEP", reason := "ML error: " ++ pyTake msg 50,
    confidence := 0.5, method := "ml_error" }

/-- The post-scaling part of `MLClassifier.classify`: prediction,
confidence, marketing re-route. -/
def classify_scaled (prims : PyPrims) (cfg : Config) (oracle : SkOracle)
    (st : MLState) (features : Features) (sv : List ℚ) : Decision :=
  match oracle.predict st.model sv, oracle.predictProba st.model sv with
  | some prediction, some probabilities =>
    let conf? : Option ℚ :=
      if probabilities.length = 1 then probabilities.get? 0
      else if prediction = 1 then probabilities.get? 1
      else probabilities.get? 0
    match conf? with
    | none => ml_error_decision "list index out of range"
    | some confidence =>
      let is_spam := prediction = 1
      let normal : Decision :=
        { action := if is_spam then "SPAM" else "KEEP",
          reason := "ML: " ++ (if is_spam then "Spam" else "Ham")
            ++ " (conf: " ++ prims.format2 confidence ++ ")",
          confidence := confidence, method := "ml_random_forest" }
      if ¬ is_spam ∧ cfg.classify_marketing_as_spam then
        let marketing_score := calculate_marketing_score features
        if marketing_score ≥ cfg.marketing_confidence_threshold then
          { action := "SPAM",
            reason := "ML: Marketing content detected (score: "
              ++ prims.format2 marketing_score ++ ")",
            confidence := marketing_score, method := "ml_marketing" }
        else normal
      else normal
  | _, _ => ml_error_decision "prediction failed"

/-- Source: `MLClassifier.classify`: fails closed when untrained; on a scaler
transform failure attempts one auto-reinitialisation from the default
samples and retries; every exception path yields the `ml_error` decision. -/
def classify (prims : PyPrims) (cfg : Config) (oracle : SkOracle)
    (now : PyDateTime) (hist : SenderHistory) (st : MLState) (e : EmailData) :
    Decision × MLState :=
  if ¬ (st.sklearn_available ∧ st.model_trained) then (ml_unavailable_decision, st)
  else
    let features := extract_features prims e now hist
    let vec := features_to_vector st.feature_names features
    match oracle.transform st.scaler vec with
    | .ok sv => (classify_scaled prims cfg oracle st features sv, st)
    | .error shape_err =>
      let reinit := init_default_model prims now hist oracle st
      let st' := reinit.2
      if reinit.1.success then
        let features2 := extract_features prims e now hist
        let vec2 := features_to_vector st'.feature_names features2
        match oracle.transform st'.scaler vec2 with
        | .ok sv2 => (classify_scaled prims cfg oracle st' features2 sv2, st')
        | .error e2 => (ml_error_decision e2, st')
      else (ml_error_decision shape_err, st')

/-! ## ListManager -/

/-- One rule list (two independent sets of normalized entries). -/
structure RuleList where
  emails : List String := []
  domains : List String := []
deriving DecidableEq, Repr

/-- Source: `ListManager.is_whitelisted`. -/
def is_whitelisted (wl : RuleList) (email : String) (domain : String) :
    Option String :=
  let email := pyLower email
  if wl.emails.contains email then
    some ("Email \x27" ++ email ++ "\x27 is whitelisted")
  else
    let domain :=
      if domain = "" then (if pyIn "@" email then pySplitLast email '@' else email)
      else domain
    let domain := pyLower domain
    if wl.domains.contains domain then
      some ("Domain \x27" ++ domain ++ "\x27 is whitelisted")
    else none

/-- Source: `ListManager.is_blacklisted`. -/
def is_blacklisted (bl : RuleList) (email : String) (domain : String) :
    Option String :=
  let email := pyLower email
  if bl.emails.contains email then
    some ("Email \x27" ++ email ++ "\x27 is blacklisted")
  else
    let domain :=
      if domain = "" then (if pyIn "@" email then pySplitLast email '@' else email)
      else domain
    let domain := pyLower domain
    if bl.domains.contains domain then
      some ("Domain \x27" ++ domain ++ "\x27 is blacklisted")
    else none

/-! ## LLM cache persistence -/

/-- One persisted cache-file entry (a decision dict plus the `timestamp` key
added by `_save_cache` / `_update_llm_cache_override`). -/
structure CacheEntry where
  action : String := ""
  reason : String := ""
  confidence : ℚ := 0
  method : String := ""
  override : Bool := false
  timestamp : Option ℚ := none
deriving DecidableEq, Repr

/-- Drop the timestamp key of a persisted entry (the source pops the
timestamp key from the loaded dict). -/
def strip_timestamp (e : CacheEntry) : Decision :=
  { action := e.action, reason := e.reason, confidence := e.confidence,
    method := e.method, override := e.override }

/-- The skip condition of the loop in `_load_cache`: `max_age_days > 0`, the
entry has a timestamp, and `(current_time - timestamp) / (24*3600)` exceeds
`max_age_days`.  The override flag and method of the entry play no role. -/
def cache_entry_expired (cfg : Config) (current_time : ℚ)
    (ent : CacheEntry) : Bool :=
  decide (cfg.cache_max_age_days > 0) &&
    (match ent.timestamp with
     | some ts => decide ((current_time - ts) / (24 * 3600) > cfg.cache_max_age_days)
     | none => false)

/-- Source: `EmailProcessor._load_cache`: build the in-memory cache from the
persisted file contents at startup time `current_time` (seconds). -/
def load_cache (cfg : Config) (current_time : ℚ)
    (cache_data : List (String × CacheEntry)) : List (String × Decision) :=
  if ¬ cfg.cache_enabled then [] else
  cache_data.foldl (fun acc p =>
    if cache_entry_expired cfg current_time p.2 then acc
    else acc ++ [(p.1, strip_timestamp p.2)]) []

/-- Source: `FeedbackProcessor._update_llm_cache_override`: persist a permanent
user-feedback override into the cache file. -/
def update_llm_cache_override (md5 : String → String) (cfg : Config)
    (now : ℚ) (cache_data : List (String × CacheEntry)) (e : EmailData)
    (is_spam : Bool) (reason : String) : List (String × CacheEntry) :=
  if cfg.cache_enabled = false then cache_data
  else
    let fingerprint := compute_email_fingerprint md5 e
    dictInsert cache_data fingerprint
      { action := if is_spam then "SPAM" else "KEEP", reason := reason,
        confidence := 1.0, method := "user_feedback", override := true,
        timestamp := some now }

/-! ## Decision pipeline -/

/-- Source: `EmailProcessor._process_single_email`: the per-message pipeline.
`ml_result` and `llm_result` are the decisions the ML and LLM classifier
calls would return for this message; the returned pair is the decision and
the (possibly extended) in-memory cache.  (The LLM-training-sample
collection is a side channel that never affects the returned decision and
is not modelled.) -/
def process_single_email (md5 : String → String) (cfg : Config)
    (wl bl : RuleList) (cache : List (String × Decision))
    (ml_result llm_result : Decision) (e : EmailData) :
    Decision × List (String × Decision) :=
  match is_whitelisted wl e.sender_email e.sender_domain with
  | some r =>
    ({ action := "KEEP", reason := "WHITELIST: " ++ r, confidence := 1.0,
       method := "whitelist" }, cache)
  | none =>
  match is_blacklisted bl e.sender_email e.sender_domain with
  | some r =>
    ({ action := "SPAM", reason := "BLACKLIST: " ++ r, confidence := 1.0,
       method := "blacklist" }, cache)
  | none =>
    let email_fingerprint := get_email_fingerprint md5 e
    let override_hit : Option Decision :=
      match cache.lookup email_fingerprint with
      | some cached =>
        if cached.method = "user_feedback" ∨ cached.override then
          some { cached with reason := cached.reason ++ " (user feedback)" }
        else none
      | none => none
    match override_hit with
    | some d => (d, cache)
    | none =>
      if ml_result.confidence > cfg.ml_confidence_threshold then (ml_result, cache)
      else if cfg.use_llm_for_uncertain then
        match cache.lookup email_fingerprint with
        | some cached => ({ cached with reason := cached.reason ++ " (cached)" }, cache)
        | none => (llm_result, dictInsert cache email_fingerprint llm_result)
      else
        ({ action := "KEEP", reason := "Uncertain classification, keeping email",
           confidence := 0.5, method := "default" }, cache)

/-! ## Concrete environment instances for witnesses and counterexamples -/

/-- A concrete runtime-primitive instance (a regex engine that finds no
matches, a zero `log2`, a fixed clock conversion): used to evaluate the
embedding on closed inputs. -/
def noPrims : PyPrims where
  reFindAll := fun _ _ => []
  reSearchI := fun _ _ => false
  reFirstGroup := fun _ _ => none
  log2 := fun _ => 0
  parseIso := fun _ => none
  fromTimestamp := fun _ => { hour := 0, weekday := 0 }
  daysBetween := fun _ _ => 0
  format2 := fun _ => ""

/-- A concrete scikit-learn oracle whose every operation fails (models an
environment where each delegated call raises). -/
def failOracle : SkOracle where
  fitEval := fun _ => .error "fit failed"
  transform := fun _ _ => .error "transform failed"
  predict := fun _ _ => none
  predictProba := fun _ _ => none

/-- A concrete scikit-learn oracle whose operations all succeed with fixed
outputs. -/
def okOracle : SkOracle where
  fitEval := fun _ => .ok ({ n_features_in_ := some get_feature_names.length },
    { id := 1 }, 1)
  transform := fun _ v => .ok v
  predict := fun _ _ => some 0
  predictProba := fun _ _ => some [0.55, 0.45]

/-! ## Generic lookup lemmas -/

/-- Source: `List.lookup` distributes over append. -/
theorem lookup_append {α : Type} (k : String) (xs ys : List (String × α)) :
    (xs ++ ys).lookup k = ((xs.lookup k).orElse (fun _ => ys.lookup k)) := by
  induction xs with
  | nil => rfl
  | cons p rest ih =>
    obtain ⟨k', v⟩ := p
    simp only [List.cons_append, List.lookup]
    cases hkk : k == k'
    · simpa using ih
    · simp

/-- A key outside the key set of a list looks up to `none`. -/
theorem lookup_eq_none_of_keys {α : Type} (k : String)
    (l : List (String × α)) (ks : List String)
    (hkeys : l.map Prod.fst = ks) (hk : k ∉ ks) : l.lookup k = none := by
  subst hkeys
  induction l with
  | nil => rfl
  | cons p rest ih =>
    obtain ⟨k', v⟩ := p
    simp only [List.map_cons, List.mem_cons, not_or] at hk
    simp only [List.lookup]
    cases hkk : k == k'
    · exact ih hk.2
    · exact absurd (beq_iff_eq.mp hkk) hk.1

/-! ## Claim C10: fingerprint agreement across components -/

/-- Claim C10: For every email record, `EmailProcessor._get_email_fingerprint`
and `FeedbackProcessor._compute_email_fingerprint` compute the same digest
(both MD5 of sender email + subject + first 200 body characters), so an
override persisted by the feedback processor is keyed under exactly the
fingerprint the decision pipeline later looks up. -/
theorem fingerprint_agreement_across_components (md5 : String → String)
    (e : EmailData) :
    get_email_fingerprint md5 e = compute_email_fingerprint md5 e := rfl

/-! ## Claim C6: fingerprint stability -/

/-- Claim C6: The fingerprint is a function of exactly the sender email, the
subject and the first 200 characters of the body: any two messages agreeing
on those three values receive equal fingerprints, whatever their other
fields or later body characters. -/
theorem fingerprint_stability (md5 : String → String) (e1 e2 : EmailData)
    (hs : e1.sender_email = e2.sender_email)
    (hsub : e1.subject = e2.subject)
    (hb : pyTake (e1.body.getD "") 200 = pyTake (e2.body.getD "") 200) :
    get_email_fingerprint md5 e1 = get_email_fingerprint md5 e2 := by
  unfold get_email_fingerprint
  rw [hs, hsub, hb]

/-- A 200-character filler prefix for the C6 witness bodies. -/
def c6Prefix : String := String.mk (List.replicate 200 'a')

/-- First C6 witness email. -/
def c6EmailA : EmailData :=
  { sender_email := "alice@example.com", subject := "Hello",
    body := some (c6Prefix ++ " hidden tail one"), account_name := "acct1" }

/-- Second C6 witness email: same sender, subject and first 200 body
characters, but a different tail and a different extra field. -/
def c6EmailB : EmailData :=
  { sender_email := "alice@example.com", subject := "Hello",
    body := some (c6Prefix ++ " ANOTHER ENDING"), account_name := "acct2" }

/-- Witness for claim C6 at two concrete emails whose bodies differ beyond
character 200 and whose other fields differ. -/
theorem fingerprint_stability_witness :
    (c6EmailA.sender_email = c6EmailB.sender_email
      ∧ c6EmailA.subject = c6EmailB.subject
      ∧ pyTake (c6EmailA.body.getD "") 200 = pyTake (c6EmailB.body.getD "") 200
      ∧ c6EmailA.body ≠ c6EmailB.body
      ∧ c6EmailA.account_name ≠ c6EmailB.account_name)
    ∧ get_email_fingerprint (fun s => s) c6EmailA
        = get_email_fingerprint (fun s => s) c6EmailB :=
  ⟨by decide,
   fingerprint_stability (fun s => s) c6EmailA c6EmailB (by decide) (by decide)
     (by decide)⟩

/-! ## Claim C2: whitelist beats blacklist -/

/-- Claim C2: If the sender matches the whitelist (even while also matching
the blacklist), the pipeline returns `KEEP` with confidence 1.0 and method
`whitelist`; the result is the same for every cache, configuration, ML
decision and LLM decision, so none of them is consulted. -/
theorem whitelist_beats_blacklist (md5 : String → String) (cfg : Config)
    (wl bl : RuleList) (cache : List (String × Decision))
    (ml_result llm_result : Decision) (e : EmailData) (r : String)
    (hw : is_whitelisted wl e.sender_email e.sender_domain = some r)
    (hb : (is_blacklisted bl e.sender_email e.sender_domain).isSome = true) :
    process_single_email md5 cfg wl bl cache ml_result llm_result e =
      ({ action := "KEEP", reason := "WHITELIST: " ++ r, confidence := 1.0,
         method := "whitelist" }, cache) := by
  unfold process_single_email
  rw [hw]

/-- C2 witness rule list: `alice@example.com` is in both lists. -/
def c2List : RuleList := { emails := ["alice@example.com"] }

/-- C2 witness email from the doubly-listed sender. -/
def c2Email : EmailData :=
  { sender_email := "alice@example.com", sender_domain := "example.com",
    subject := "Hi", body := some "hello there" }

/-- C2 witness: a fully confident SPAM verdict the ML/LLM classifiers would
return, which the pipeline must ignore. -/
def c2Spam : Decision :=
  { action := "SPAM", reason := "classifier says spam", confidence := 1.0,
    method := "ml_random_forest" }

/-- Witness for claim C2: concrete doubly-listed sender; the pipeline keeps the
email with method `whitelist` although both classifiers would say SPAM. -/
theorem whitelist_beats_blacklist_witness :
    (is_whitelisted c2List c2Email.sender_email c2Email.sender_domain
        = some "Email \x27alice@example.com\x27 is whitelisted"
      ∧ (is_blacklisted c2List c2Email.sender_email c2Email.sender_domain).isSome = true)
    ∧ process_single_email (fun s => s) {} c2List c2List [] c2Spam c2Spam c2Email =
      ({ action := "KEEP",
         reason := "WHITELIST: " ++ "Email \x27alice@example.com\x27 is whitelisted",
         confidence := 1.0, method := "whitelist" }, []) :=
  ⟨⟨by decide, by decide⟩,
   whitelist_beats_blacklist (fun s => s) {} c2List c2List [] c2Spam c2Spam
     c2Email _ (by decide) (by decide)⟩

/-! ## Claim C3: override durability -/

/-- Claim C3: When the sender matches neither rule list and the in-memory
cache holds an override entry for the message's fingerprint (method
`user_feedback` or override flag set), the pipeline returns that entry (with
its reason annotated), in particular the entry's action — for every ML and
LLM decision. -/
theorem override_durability (md5 : String → String) (cfg : Config)
    (wl bl : RuleList) (cache : List (String × Decision))
    (ml_result llm_result : Decision) (e : EmailData) (c : Decision)
    (hw : is_whitelisted wl e.sender_email e.sender_domain = none)
    (hb : is_blacklisted bl e.sender_email e.sender_domain = none)
    (hc : cache.lookup (get_email_fingerprint md5 e) = some c)
    (ho : c.method = "user_feedback" ∨ c.override = true) :
    (process_single_email md5 cfg wl bl cache ml_result llm_result e).1 =
      { c with reason := c.reason ++ " (user feedback)" }
    ∧ (process_single_email md5 cfg wl bl cache ml_result llm_result e).1.action
        = c.action := by
  simp only [process_single_email, hw, hb, hc]
  rw [if_pos ho]
  exact ⟨rfl, rfl⟩

/-- C3 witness email. -/
def c3Email : EmailData :=
  { sender_email := "sender@shop.example", sender_domain := "shop.example",
    subject := "Catalog", body := some "our new catalog" }

/-- C3 witness override cache entry (as loaded from a persisted user
correction). -/
def c3Override : Decision :=
  { action := "SPAM", reason := "User feedback: is spam", confidence := 1.0,
    method := "user_feedback", override := true }

/-- C3 witness in-memory cache keyed by the fingerprint of the witness email. -/
def c3Cache : List (String × Decision) :=
  [(get_email_fingerprint (fun s => s) c3Email, c3Override)]

/-- C3 witness: a confident KEEP the ML/LLM classifiers would return. -/
def c3Keep : Decision :=
  { action := "KEEP", reason := "classifier says ham", confidence := 0.95,
    method := "ml_random_forest" }

/-- Witness for claim C3: concrete cached override; the pipeline returns its
SPAM action although both classifiers would keep the message with
confidence 0.95. -/
theorem override_durability_witness :
    (is_whitelisted {} c3Email.sender_email c3Email.sender_domain = none
      ∧ is_blacklisted {} c3Email.sender_email c3Email.sender_domain = none
      ∧ c3Cache.lookup (get_email_fingerprint (fun s => s) c3Email) = some c3Override
      ∧ (c3Override.method = "user_feedback" ∨ c3Override.override = true))
    ∧ (process_single_email (fun s => s) {} {} {} c3Cache c3Keep c3Keep c3Email).1 =
        { c3Override with reason := c3Override.reason ++ " (user feedback)" }
    ∧ (process_single_email (fun s => s) {} {} {} c3Cache c3Keep c3Keep c3Email).1.action
        = c3Override.action :=
  ⟨⟨by decide, by decide, by decide, by decide⟩,
   (override_durability (fun s => s) {} {} {} c3Cache c3Keep c3Keep c3Email
     c3Override (by decide) (by decide) (by decide) (by decide)).1,
   (override_durability (fun s => s) {} {} {} c3Cache c3Keep c3Keep c3Email
     c3Override (by decide) (by decide) (by decide) (by decide)).2⟩

/-! ## Claim C4: training floor with atomicity -/

/-- Claim C4: `train_with_samples` on 9 or fewer samples returns the
insufficient-samples failure and leaves the whole classifier state (model,
scaler, trained flag, persisted artifacts) exactly unchanged. -/
theorem training_floor (prims : PyPrims) (now : PyDateTime)
    (hist : SenderHistory) (oracle : SkOracle) (st : MLState)
    (samples : List TrainingSample)
    (hsk : st.sklearn_available = true) (hlen : samples.length ≤ 9) :
    train_with_samples prims now hist oracle st samples =
      ({ success := false,
         error := some "Need at least 10 samples for training" }, st) := by
  unfold train_with_samples
  rw [hsk]
  simp only [Bool.true_eq_false, if_false]
  rw [if_pos (by omega)]

/-- Witness for claim C4: an empty sample list against a fresh classifier
state leaves the state untouched and reports the explicit error. -/
theorem training_floor_witness :
    (({} : MLState).sklearn_available = true
      ∧ ([] : List TrainingSample).length ≤ 9)
    ∧ train_with_samples noPrims { hour := 0, weekday := 0 } [] failOracle {} [] =
      ({ success := false,
         error := some "Need at least 10 samples for training" }, {}) :=
  ⟨⟨by decide, by decide⟩,
   training_floor noPrims { hour := 0, weekday := 0 } [] failOracle {} []
     (by decide) (by decide)⟩

/-! ## Claim C7: sample-weight monotonicity -/

/-- Claim C7: A sample whose sender-history features show at least 3 total
feedback entries or a recurring-spammer/recurring-ham flag always receives a
weight at least as large as a sample with the same source tag whose sender
is unseen (zero feedback entries, no recurrence flags). -/
theorem sample_weight_monotonicity (s1 s2 : TrainingSample)
    (f1 f2 : Features) (hsrc : s1.source = s2.source)
    (h1 : featGet f1 "sender_total_feedbacks" 0 ≥ 3
        ∨ featGet f1 "sender_is_recurring_spammer" 0 = 1
        ∨ featGet f1 "sender_is_recurring_ham" 0 = 1)
    (h2t : featGet f2 "sender_total_feedbacks" 0 = 0)
    (h2s : featGet f2 "sender_is_recurring_spammer" 0 = 0)
    (h2h : featGet f2 "sender_is_recurring_ham" 0 = 0) :
    calculate_sample_weight s1 f1 ≥ calculate_sample_weight s2 f2 := by
  unfold calculate_sample_weight
  rw [if_pos (by tauto)]
  rw [if_neg (by rw [h2s, h2h, h2t]; norm_num)]
  rw [if_neg (by rw [h2t]; norm_num)]
  split <;> norm_num

/-- C7 witness sample from a recurring sender. -/
def c7Recurring : TrainingSample :=
  { email_data := { sender_email := "bulk@known.example" }, is_spam := true,
    source := some "user_feedback" }

/-- C7 witness sample from an unseen sender. -/
def c7Unseen : TrainingSample :=
  { email_data := { sender_email := "new@fresh.example" }, is_spam := true,
    source := some "user_feedback" }

/-- C7 witness features of the recurring sender. -/
def c7FeaturesRecurring : Features :=
  [("sender_total_feedbacks", 4), ("sender_is_recurring_spammer", 1),
   ("sender_is_recurring_ham", 0)]

/-- C7 witness features of the unseen sender. -/
def c7FeaturesUnseen : Features :=
  [("sender_total_feedbacks", 0), ("sender_is_recurring_spammer", 0),
   ("sender_is_recurring_ham", 0)]

/-- Witness for claim C7 at concrete samples and feature dictionaries. -/
theorem sample_weight_monotonicity_witness :
    (c7Recurring.source = c7Unseen.source
      ∧ (featGet c7FeaturesRecurring "sender_total_feedbacks" 0 ≥ 3
          ∨ featGet c7FeaturesRecurring "sender_is_recurring_spammer" 0 = 1
          ∨ featGet c7FeaturesRecurring "sender_is_recurring_ham" 0 = 1)
      ∧ featGet c7FeaturesUnseen "sender_total_feedbacks" 0 = 0
      ∧ featGet c7FeaturesUnseen "sender_is_recurring_spammer" 0 = 0
      ∧ featGet c7FeaturesUnseen "sender_is_recurring_ham" 0 = 0)
    ∧ calculate_sample_weight c7Recurring c7FeaturesRecurring
        ≥ calculate_sample_weight c7Unseen c7FeaturesUnseen :=
  ⟨⟨by decide, by norm_num [featGet, List.lookup], by decide, by decide, by decide⟩,
   sample_weight_monotonicity c7Recurring c7Unseen c7FeaturesRecurring
     c7FeaturesUnseen (by decide) (by norm_num [featGet, List.lookup])
     (by decide) (by decide) (by decide)⟩

/-! ## Claim C1: cache loading and override permanence -/

/-- The per-entry transformer `_load_cache` applies: drop expired entries,
strip the timestamp of the kept ones. -/
def load_cache_entry (cfg : Config) (t : ℚ) (p : String × CacheEntry) :
    Option (String × Decision) :=
  if cache_entry_expired cfg t p.2 then none
  else some (p.1, strip_timestamp p.2)

/-- The load loop is the `filterMap` of its per-entry transformer. -/
theorem load_cache_foldl (cfg : Config) (t : ℚ)
    (data : List (String × CacheEntry)) (acc : List (String × Decision)) :
    data.foldl (fun acc p =>
        if cache_entry_expired cfg t p.2 then acc
        else acc ++ [(p.1, strip_timestamp p.2)]) acc
      = acc ++ data.filterMap (load_cache_entry cfg t) := by
  induction data generalizing acc with
  | nil => simp
  | cons q rest ih =>
    simp only [List.foldl_cons, List.filterMap_cons, load_cache_entry]
    split
    · rw [ih]
    · rw [ih]; simp

/-- Source: `load_cache` on an enabled cache is the `filterMap` of the per-entry
transformer. -/
theorem load_cache_eq_filterMap (cfg : Config) (t : ℚ)
    (data : List (String × CacheEntry)) (hen : cfg.cache_enabled = true) :
    load_cache cfg t data = data.filterMap (load_cache_entry cfg t) := by
  unfold load_cache
  rw [if_neg (by simp [hen])]
  simpa using load_cache_foldl cfg t data []

/-- Lookup skips a head pair with a different key. -/
theorem lookup_cons_ne {α : Type} (k k' : String) (v : α)
    (l : List (String × α)) (h : k ≠ k') :
    List.lookup k ((k', v) :: l) = List.lookup k l := by
  have hb : (k == k') = false := beq_eq_false_iff_ne.mpr h
  simp [List.lookup, hb]

/-- Lookup hits a head pair with the same key. -/
theorem lookup_cons_eq {α : Type} (k : String) (v : α)
    (l : List (String × α)) :
    List.lookup k ((k, v) :: l) = some v := by
  simp [List.lookup]

/-- A fingerprint outside the persisted keys is absent from the loaded
cache. -/
theorem load_cache_lookup_none (cfg : Config) (t : ℚ) (fp : String)
    (l : List (String × CacheEntry)) (h : fp ∉ l.map Prod.fst) :
    (l.filterMap (load_cache_entry cfg t)).lookup fp = none := by
  induction l with
  | nil => rfl
  | cons q rest ih =>
    simp only [List.map_cons, List.mem_cons, not_or] at h
    rw [List.filterMap_cons]
    by_cases hexp : cache_entry_expired cfg t q.2 = true
    · simp only [load_cache_entry, if_pos hexp]
      exact ih h.2
    · simp only [load_cache_entry, if_neg hexp]
      rw [lookup_cons_ne _ _ _ _ h.1]
      exact ih h.2

/-- The C1 counterexample email. -/
def c1Email : EmailData :=
  { sender_email := "spammer@evil.example", sender_domain := "evil.example",
    subject := "Buy now", body := some "cheap pills" }

/-- The cache file produced by persisting one user-feedback override for
`c1Email` at time 0 (via `FeedbackProcessor._update_llm_cache_override`). -/
def c1PersistedCache : List (String × CacheEntry) :=
  update_llm_cache_override (fun s => s) {} 0 [] c1Email true
    "User feedback: is spam"

/-- Claim C1 counterexample: An override entry persisted by the feedback
processor at time 0 (override flag set, method `user_feedback`) is *not*
loaded by `_load_cache` 100 days later under the default configuration
(max age 30 days): the loaded cache is empty.  This refutes "every override
entry is loaded into memory regardless of its age". -/
theorem cache_load_override_expiry_counterexample :
    (c1PersistedCache
      = [(compute_email_fingerprint (fun s => s) c1Email,
          { action := "SPAM", reason := "User feedback: is spam",
            confidence := 1.0, method := "user_feedback", override := true,
            timestamp := some 0 })])
    ∧ load_cache {} (100 * 86400) c1PersistedCache = [] :=
  ⟨by decide, by decide⟩

/-- Claim C1 as amended: At load time every persisted entry is kept exactly
when it is not expired, where expiry means: a positive configured max age,
a present timestamp, and an age in days exceeding the max age.  The
entry's override flag and method are irrelevant: overrides expire like any
other entry (their permanence only holds at lookup time, per C3).
Non-override entries older than the max age are discarded, as the claim
states; override entries older than the max age are discarded too. -/
theorem cache_load_age_filter (cfg : Config) (t : ℚ)
    (data : List (String × CacheEntry)) (fp : String) (ent : CacheEntry)
    (hen : cfg.cache_enabled = true)
    (hnodup : (data.map Prod.fst).Nodup) (hmem : (fp, ent) ∈ data) :
    ((load_cache cfg t data).lookup fp
      = if cache_entry_expired cfg t ent then none
        else some (strip_timestamp ent))
    ∧ (cache_entry_expired cfg t ent = true ↔
        cfg.cache_max_age_days > 0 ∧ ∃ ts, ent.timestamp = some ts
          ∧ (t - ts) / (24 * 3600) > cfg.cache_max_age_days) := by
  constructor
  · rw [load_cache_eq_filterMap cfg t data hen]
    induction data with
    | nil => cases hmem
    | cons q rest ih =>
      obtain ⟨qk, qe⟩ := q
      simp only [List.map_cons, List.nodup_cons] at hnodup
      rcases List.mem_cons.mp hmem with heq | hmem'
      · injection heq with h1 h2
        subst h1; subst h2
        rw [List.filterMap_cons]
        by_cases hexp : cache_entry_expired cfg t ent = true
        · simp only [load_cache_entry, if_pos hexp]
          exact load_cache_lookup_none cfg t fp rest hnodup.1
        · simp only [load_cache_entry, if_neg hexp]
          rw [lookup_cons_eq]
      · have hfp : fp ≠ qk := by
          intro h
          exact hnodup.1 (h ▸ (List.mem_map_of_mem Prod.fst hmem'))
        rw [List.filterMap_cons]
        by_cases hexp : cache_entry_expired cfg t qe = true
        · simp only [load_cache_entry, if_pos hexp]
          exact ih hnodup.2 hmem'
        · simp only [load_cache_entry, if_neg hexp]
          rw [lookup_cons_ne _ _ _ _ hfp]
          exact ih hnodup.2 hmem'
  · unfold cache_entry_expired
    cases hts : ent.timestamp with
    | none => simp [hts]
    | some ts => simp [hts]

/-- C1 witness entry: an override persisted at time 0 and loaded one day
later (not expired, so it is loaded; its strip keeps the override flag). -/
def c1FreshOverride : CacheEntry :=
  { action := "SPAM", reason := "User feedback: is spam", confidence := 1.0,
    method := "user_feedback", override := true, timestamp := some 0 }

/-- C1 witness persisted cache. -/
def c1WitnessData : List (String × CacheEntry) := [("fp1", c1FreshOverride)]

/-- Witness for claim C1 as amended at a concrete one-entry cache file. -/
theorem cache_load_age_filter_witness :
    (({} : Config).cache_enabled = true
      ∧ (c1WitnessData.map Prod.fst).Nodup
      ∧ ("fp1", c1FreshOverride) ∈ c1WitnessData)
    ∧ ((load_cache {} 86400 c1WitnessData).lookup "fp1"
        = if cache_entry_expired {} 86400 c1FreshOverride then none
          else some (strip_timestamp c1FreshOverride))
    ∧ (cache_entry_expired {} 86400 c1FreshOverride = true ↔
        ({} : Config).cache_max_age_days > 0
          ∧ ∃ ts, c1FreshOverride.timestamp = some ts
            ∧ (86400 - ts) / (24 * 3600) > ({} : Config).cache_max_age_days) :=
  ⟨⟨by decide, by decide, by decide⟩,
   (cache_load_age_filter {} 86400 c1WitnessData "fp1" c1FreshOverride
      (by decide) (by decide) (by decide)).1,
   (cache_load_age_filter {} 86400 c1WitnessData "fp1" c1FreshOverride
      (by decide) (by decide) (by decide)).2⟩

/-! ## Claim C9: marketing re-route -/

/-- The metadata feature keys. -/
theorem metadata_keys (e : EmailData) :
    (extract_metadata_features e).map Prod.fst =
      ["subject_length", "subject_word_count", "content_length",
       "content_word_count", "subject_to_content_ratio"] := rfl

/-- The subject feature keys. -/
theorem subject_keys (s : String) :
    (extract_subject_features s).map Prod.fst =
      ["subject_caps_ratio", "subject_exclamation_count",
       "subject_question_count", "subject_urgency_keywords",
       "subject_money_keywords", "subject_suspicious_keywords",
       "subject_phishing_keywords", "subject_marketing_keywords",
       "subject_scam_keywords", "subject_special_chars", "subject_has_re",
       "subject_has_brackets"] := rfl

/-- The content feature keys (fewer in the empty-content branch). -/
theorem content_keys (prims : PyPrims) (c : String) :
    (extract_content_features prims c).map Prod.fst =
      if c = "" then
        ["content_caps_ratio", "content_exclamation_count", "content_url_count",
         "content_email_count", "content_phone_count", "content_number_count",
         "content_line_count", "content_avg_line_length",
         "content_urgency_keywords", "content_money_keywords",
         "content_suspicious_keywords", "content_phishing_keywords",
         "content_marketing_keywords", "content_scam_keywords"]
      else
        ["content_caps_ratio", "content_exclamation_count",
         "content_question_count", "content_url_count",
         "content_suspicious_tld_count", "content_email_count",
         "content_phone_count", "content_number_count", "content_line_count",
         "content_avg_line_length", "content_urgency_keywords",
         "content_money_keywords", "content_suspicious_keywords",
         "content_phishing_keywords", "content_marketing_keywords",
         "content_scam_keywords", "content_html_tag_count",
         "content_tracking_urls", "content_newsletter_phrases",
         "content_image_count", "content_social_links", "content_cta_count",
         "content_price_indicators"] := by
  unfold extract_content_features
  split <;> rfl

/-- The sender feature keys. -/
theorem sender_keys (e : EmailData) :
    (extract_sender_features e).map Prod.fst =
      ["sender_suspicious_tld", "sender_local_length", "sender_has_numbers",
       "sender_has_special_chars", "sender_domain_length",
       "sender_legitimate_domain"] := rfl

/-- The header feature keys. -/
theorem header_keys (prims : PyPrims) (e : EmailData) :
    (extract_header_features prims e).map Prod.fst =
      ["auth_spf_pass", "auth_dkim_pass", "auth_dmarc_pass",
       "from_dkim_domain_match", "has_list_unsubscribe",
       "replyto_from_mismatch", "message_id_domain_match", "received_hops"] :=
  rfl

/-- The sender-history feature keys (identical in both branches, whatever
the history state holds). -/
theorem sender_history_keys (prims : PyPrims) (e : EmailData)
    (now : PyDateTime) (hist : SenderHistory) :
    (extract_sender_history_features prims e now hist).map Prod.fst =
      ["sender_spam_ratio", "sender_total_feedbacks",
       "sender_days_since_first", "sender_is_recurring_spammer",
       "sender_is_recurring_ham"] := by
  simp only [extract_sender_history_features]
  cases List.lookup (pyLower e.sender_email) hist <;> rfl

/-- The temporal feature keys (whatever clock value is read). -/
theorem temporal_keys (prims : PyPrims) (e : EmailData) (now : PyDateTime) :
    (extract_temporal_features prims e now).map Prod.fst =
      ["temporal_hour_of_day", "temporal_day_of_week", "temporal_is_weekend",
       "temporal_is_night_time", "temporal_is_business_hours"] := rfl

/-- The advanced-text feature keys (identical in both branches). -/
theorem advanced_keys (prims : PyPrims) (s c : String) :
    (extract_advanced_text_features prims s c).map Prod.fst =
      ["text_entropy", "text_unique_word_ratio", "text_avg_word_length",
       "text_lexical_diversity", "text_repeated_words"] := by
  simp only [extract_advanced_text_features]
  split <;> rfl

/-- The rich-content feature keys (identical in both branches). -/
theorem rich_keys (prims : PyPrims) (c : String) :
    (extract_rich_content_features prims c).map Prod.fst =
      ["rich_html_to_text_ratio", "rich_has_images", "rich_has_forms",
       "rich_has_scripts", "rich_link_density"] := by
  unfold extract_rich_content_features
  split <;> rfl

/-- The interaction feature keys. -/
theorem interaction_keys (f : Features) :
    (extract_interaction_features f).map Prod.fst =
      ["interaction_marketing_newsletter", "interaction_suspicious_no_auth",
       "interaction_urgency_money", "interaction_spammer_suspicious",
       "interaction_shouting"] := rfl

/-- A key bound by no feature group at all looks up to `none` in the full
extracted dict. -/
theorem extract_lookup_none_of_unbound (prims : PyPrims) (e : EmailData)
    (now : PyDateTime) (hist : SenderHistory) (k : String)
    (hm : k ∉ ["subject_length", "subject_word_count", "content_length",
       "content_word_count", "subject_to_content_ratio"])
    (hs : k ∉ ["subject_caps_ratio", "subject_exclamation_count",
       "subject_question_count", "subject_urgency_keywords",
       "subject_money_keywords", "subject_suspicious_keywords",
       "subject_phishing_keywords", "subject_marketing_keywords",
       "subject_scam_keywords", "subject_special_chars", "subject_has_re",
       "subject_has_brackets"])
    (hc : (extract_content_features prims (contentText e)).lookup k = none)
    (hsend : k ∉ ["sender_suspicious_tld", "sender_local_length",
       "sender_has_numbers", "sender_has_special_chars",
       "sender_domain_length", "sender_legitimate_domain"])
    (hhead : k ∉ ["auth_spf_pass", "auth_dkim_pass", "auth_dmarc_pass",
       "from_dkim_domain_match", "has_list_unsubscribe",
       "replyto_from_mismatch", "message_id_domain_match", "received_hops"])
    (hhist : k ∉ ["sender_spam_ratio", "sender_total_feedbacks",
       "sender_days_since_first", "sender_is_recurring_spammer",
       "sender_is_recurring_ham"])
    (htemp : k ∉ ["temporal_hour_of_day", "temporal_day_of_week",
       "temporal_is_weekend", "temporal_is_night_time",
       "temporal_is_business_hours"])
    (hadv : k ∉ ["text_entropy", "text_unique_word_ratio",
       "text_avg_word_length", "text_lexical_diversity",
       "text_repeated_words"])
    (hrich : k ∉ ["rich_html_to_text_ratio", "rich_has_images",
       "rich_has_forms", "rich_has_scripts", "rich_link_density"])
    (hint : k ∉ ["interaction_marketing_newsletter",
       "interaction_suspicious_no_auth", "interaction_urgency_money",
       "interaction_spammer_suspicious", "interaction_shouting"]) :
    (extract_features prims e now hist).lookup k = none := by
  show ((pre_interaction_features prims e now hist)
      ++ extract_interaction_features (pre_interaction_features prims e now hist)).lookup k
    = none
  rw [lookup_append]
  rw [lookup_eq_none_of_keys k _ _ (interaction_keys _) hint]
  unfold pre_interaction_features
  simp only [lookup_append]
  rw [lookup_eq_none_of_keys k _ _ (metadata_keys e) hm,
    lookup_eq_none_of_keys k _ _ (subject_keys e.subject) hs, hc,
    lookup_eq_none_of_keys k _ _ (sender_keys e) hsend,
    lookup_eq_none_of_keys k _ _ (header_keys prims e) hhead,
    lookup_eq_none_of_keys k _ _ (sender_history_keys prims e now hist) hhist,
    lookup_eq_none_of_keys k _ _ (temporal_keys prims e now) htemp,
    lookup_eq_none_of_keys k _ _ (advanced_keys prims e.subject (contentText e)) hadv,
    lookup_eq_none_of_keys k _ _ (rich_keys prims (contentText e)) hrich]
  rfl

/-- Lift a content-group lookup through `extract_features` (the metadata and
subject groups do not bind the key, the appended later groups are shadowed). -/
theorem extract_lookup_of_content (prims : PyPrims) (e : EmailData)
    (now : PyDateTime) (hist : SenderHistory) (k : String) (v : ℚ)
    (hm : k ∉ ["subject_length", "subject_word_count", "content_length",
       "content_word_count", "subject_to_content_ratio"])
    (hs : k ∉ ["subject_caps_ratio", "subject_exclamation_count",
       "subject_question_count", "subject_urgency_keywords",
       "subject_money_keywords", "subject_suspicious_keywords",
       "subject_phishing_keywords", "subject_marketing_keywords",
       "subject_scam_keywords", "subject_special_chars", "subject_has_re",
       "subject_has_brackets"])
    (hc : (extract_content_features prims (contentText e)).lookup k = some v) :
    (extract_features prims e now hist).lookup k = some v := by
  show ((pre_interaction_features prims e now hist)
      ++ extract_interaction_features (pre_interaction_features prims e now hist)).lookup k
    = some v
  unfold pre_interaction_features
  simp only [lookup_append]
  rw [lookup_eq_none_of_keys k _ _ (metadata_keys e) hm]
  rw [lookup_eq_none_of_keys k _ _ (subject_keys e.subject) hs]
  rw [hc]
  rfl

/-- Lift a subject-group lookup through `extract_features`. -/
theorem extract_lookup_of_subject (prims : PyPrims) (e : EmailData)
    (now : PyDateTime) (hist : SenderHistory) (k : String) (v : ℚ)
    (hm : k ∉ ["subject_length", "subject_word_count", "content_length",
       "content_word_count", "subject_to_content_ratio"])
    (hs : (extract_subject_features e.subject).lookup k = some v) :
    (extract_features prims e now hist).lookup k = some v := by
  show ((pre_interaction_features prims e now hist)
      ++ extract_interaction_features (pre_interaction_features prims e now hist)).lookup k
    = some v
  unfold pre_interaction_features
  simp only [lookup_append]
  rw [lookup_eq_none_of_keys k _ _ (metadata_keys e) hm]
  rw [hs]
  rfl

/-- The `subject_marketing_keywords` value is a keyword count, hence
nonnegative. -/
theorem subject_marketing_lookup_nonneg (s : String) :
    ∃ q : ℚ, (extract_subject_features s).lookup "subject_marketing_keywords"
      = some q ∧ 0 ≤ q :=
  ⟨_, rfl, by exact_mod_cast Nat.zero_le _⟩

/-- The `subject_marketing_keywords` feature of a full extraction is
nonnegative. -/
theorem extract_subject_marketing_featGet_nonneg (prims : PyPrims)
    (e : EmailData) (now : PyDateTime) (hist : SenderHistory) :
    0 ≤ featGet (extract_features prims e now hist)
      "subject_marketing_keywords" 0 := by
  obtain ⟨q, hq, hqn⟩ := subject_marketing_lookup_nonneg e.subject
  unfold featGet
  rw [extract_lookup_of_subject prims e now hist _ _ (by decide) hq]
  simpa using hqn

/-- Each marketing-relevant content feature of a full extraction is
nonnegative: in the nonempty-content branch it is a count; with empty
content it is either the literal 0 (`content_marketing_keywords`) or absent
from the dict, so `features.get` falls back to the default 0. -/
theorem extract_marketing_featGet_nonneg (prims : PyPrims) (e : EmailData)
    (now : PyDateTime) (hist : SenderHistory) (k : String)
    (hk : k ∈ ["content_marketing_keywords", "content_newsletter_phrases",
       "content_tracking_urls", "content_cta_count",
       "content_price_indicators", "content_social_links"]) :
    0 ≤ featGet (extract_features prims e now hist) k 0 := by
  simp only [List.mem_cons, List.not_mem_nil, or_false] at hk
  unfold featGet
  by_cases hcc : contentText e = ""
  · rcases hk with h | h | h | h | h | h
    · subst h
      have hcl : (extract_content_features prims (contentText e)).lookup
          "content_marketing_keywords" = some 0 := by
        unfold extract_content_features
        rw [if_pos hcc]
        rfl
      rw [extract_lookup_of_content prims e now hist _ _ (by decide)
        (by decide) hcl]
      norm_num
    · subst h
      have hcl : (extract_content_features prims (contentText e)).lookup
          "content_newsletter_phrases" = none := by
        unfold extract_content_features; rw [if_pos hcc]; rfl
      rw [extract_lookup_none_of_unbound prims e now hist _ (by decide)
        (by decide) hcl (by decide) (by decide) (by decide) (by decide)
        (by decide) (by decide) (by decide)]
      norm_num
    · subst h
      have hcl : (extract_content_features prims (contentText e)).lookup
          "content_tracking_urls" = none := by
        unfold extract_content_features; rw [if_pos hcc]; rfl
      rw [extract_lookup_none_of_unbound prims e now hist _ (by decide)
        (by decide) hcl (by decide) (by decide) (by decide) (by decide)
        (by decide) (by decide) (by decide)]
      norm_num
    · subst h
      have hcl : (extract_content_features prims (contentText e)).lookup
          "content_cta_count" = none := by
        unfold extract_content_features; rw [if_pos hcc]; rfl
      rw [extract_lookup_none_of_unbound prims e now hist _ (by decide)
        (by decide) hcl (by decide) (by decide) (by decide) (by decide)
        (by decide) (by decide) (by decide)]
      norm_num
    · subst h
      have hcl : (extract_content_features prims (contentText e)).lookup
          "content_price_indicators" = none := by
        unfold extract_content_features; rw [if_pos hcc]; rfl
      rw [extract_lookup_none_of_unbound prims e now hist _ (by decide)
        (by decide) hcl (by decide) (by decide) (by decide) (by decide)
        (by decide) (by decide) (by decide)]
      norm_num
    · subst h
      have hcl : (extract_content_features prims (contentText e)).lookup
          "content_social_links" = none := by
        unfold extract_content_features; rw [if_pos hcc]; rfl
      rw [extract_lookup_none_of_unbound prims e now hist _ (by decide)
        (by decide) hcl (by decide) (by decide) (by decide) (by decide)
        (by decide) (by decide) (by decide)]
      norm_num
  · have hlist : ∃ n : Nat,
        (extract_content_features prims (contentText e)).lookup k
          = some (n : ℚ) := by
      unfold extract_content_features
      rw [if_neg hcc]
      rcases hk with h | h | h | h | h | h <;> (subst h; exact ⟨_, rfl⟩)
    obtain ⟨n, hn⟩ := hlist
    rw [extract_lookup_of_content prims e now hist k _ ?_ ?_ hn]
    · simpa using (Nat.cast_nonneg n : (0 : ℚ) ≤ n)
    · rcases hk with h | h | h | h | h | h <;> (subst h; decide)
    · rcases hk with h | h | h | h | h | h <;> (subst h; decide)

/-- Score bounds for `_calculate_marketing_score` over any feature dict with
nonnegative marketing signals: each contributing signal is individually
capped and the total is clamped into `[0, 1]`. -/
theorem marketing_score_bounds_aux (f : Features)
    (h1 : 0 ≤ featGet f "content_marketing_keywords" 0)
    (h2 : 0 ≤ featGet f "subject_marketing_keywords" 0)
    (h3 : 0 ≤ featGet f "content_newsletter_phrases" 0)
    (h4 : 0 ≤ featGet f "content_tracking_urls" 0)
    (h5 : 0 ≤ featGet f "content_cta_count" 0)
    (h6 : 0 ≤ featGet f "content_price_indicators" 0)
    (h7 : 0 ≤ featGet f "content_social_links" 0) :
    0 ≤ calculate_marketing_score f ∧ calculate_marketing_score f ≤ 1 := by
  unfold calculate_marketing_score
  have e1 : 0 ≤ min ((featGet f "content_marketing_keywords" 0
      + featGet f "subject_marketing_keywords" 0) * 0.15) 0.5 :=
    le_min (mul_nonneg (by linarith) (by norm_num)) (by norm_num)
  have e2 : 0 ≤ min (featGet f "content_newsletter_phrases" 0 * 0.1) 0.3 :=
    le_min (mul_nonneg h3 (by norm_num)) (by norm_num)
  have e3 : 0 ≤ min (featGet f "content_tracking_urls" 0 * 0.2) 0.4 :=
    le_min (mul_nonneg h4 (by norm_num)) (by norm_num)
  have e4 : 0 ≤ min (featGet f "content_cta_count" 0 * 0.08) 0.3 :=
    le_min (mul_nonneg h5 (by norm_num)) (by norm_num)
  have e5 : 0 ≤ min (featGet f "content_price_indicators" 0 * 0.1) 0.2 :=
    le_min (mul_nonneg h6 (by norm_num)) (by norm_num)
  have e6 : 0 ≤ min (featGet f "content_social_links" 0 * 0.05) 0.15 :=
    le_min (mul_nonneg h7 (by norm_num)) (by norm_num)
  refine ⟨le_min ?_ (by norm_num), min_le_right _ _⟩
  split <;> split <;> linarith

/-- The marketing score of an extracted feature dict always lies in
`[0, 1]`. -/
theorem marketing_score_of_extract_bounds (prims : PyPrims) (e : EmailData)
    (now : PyDateTime) (hist : SenderHistory) :
    0 ≤ calculate_marketing_score (extract_features prims e now hist)
    ∧ calculate_marketing_score (extract_features prims e now hist) ≤ 1 :=
  marketing_score_bounds_aux _
    (extract_marketing_featGet_nonneg prims e now hist
      "content_marketing_keywords" (by decide))
    (extract_subject_marketing_featGet_nonneg prims e now hist)
    (extract_marketing_featGet_nonneg prims e now hist
      "content_newsletter_phrases" (by decide))
    (extract_marketing_featGet_nonneg prims e now hist
      "content_tracking_urls" (by decide))
    (extract_marketing_featGet_nonneg prims e now hist
      "content_cta_count" (by decide))
    (extract_marketing_featGet_nonneg prims e now hist
      "content_price_indicators" (by decide))
    (extract_marketing_featGet_nonneg prims e now hist
      "content_social_links" (by decide))

/-- Claim C9: When the trained model predicts the non-spam class, the
marketing toggle is on, and the computed marketing score exceeds the
configured threshold, `classify` returns action `SPAM` with the marketing
score as confidence and the distinct method tag `ml_marketing` (different
from `ml_random_forest`); moreover the marketing score always lies in
`[0, 1]`, each contributing signal being individually capped. -/
theorem marketing_reroute (prims : PyPrims) (cfg : Config) (oracle : SkOracle)
    (now : PyDateTime) (hist : SenderHistory) (st : MLState) (e : EmailData)
    (sv probs : List ℚ) (pred : Nat)
    (hsk : st.sklearn_available = true) (htr : st.model_trained = true)
    (htrans : oracle.transform st.scaler
      (features_to_vector st.feature_names (extract_features prims e now hist))
        = .ok sv)
    (hpred : oracle.predict st.model sv = some pred)
    (hnp : pred ≠ 1)
    (hproba : oracle.predictProba st.model sv = some probs)
    (hne : probs ≠ [])
    (hmk : cfg.classify_marketing_as_spam = true)
    (hth : calculate_marketing_score (extract_features prims e now hist)
      > cfg.marketing_confidence_threshold) :
    ((classify prims cfg oracle now hist st e).1.action = "SPAM"
      ∧ (classify prims cfg oracle now hist st e).1.confidence
          = calculate_marketing_score (extract_features prims e now hist)
      ∧ (classify prims cfg oracle now hist st e).1.method = "ml_marketing"
      ∧ "ml_marketing" ≠ "ml_random_forest")
    ∧ (0 ≤ calculate_marketing_score (extract_features prims e now hist)
      ∧ calculate_marketing_score (extract_features prims e now hist) ≤ 1) := by
  refine ⟨?_, marketing_score_of_extract_bounds prims e now hist⟩
  have hav : ¬ ¬ (st.sklearn_available = true ∧ st.model_trained = true) := by
    simp [hsk, htr]
  simp only [classify]
  rw [if_neg hav, htrans]
  simp only [classify_scaled]
  rw [hpred, hproba]
  dsimp only
  obtain ⟨c0, hc0⟩ : ∃ c0, probs.get? 0 = some c0 := by
    cases probs with
    | nil => exact absurd rfl hne
    | cons a l => exact ⟨a, rfl⟩
  have hpred1 : (if pred = 1 then probs.get? 1 else probs.get? 0)
      = probs.get? 0 := if_neg hnp
  have hconf : (if probs.length = 1 then probs.get? 0
      else if pred = 1 then probs.get? 1 else probs.get? 0) = some c0 := by
    by_cases hl : probs.length = 1
    · rw [if_pos hl]; exact hc0
    · rw [if_neg hl, hpred1]; exact hc0
  rw [hconf]
  dsimp only
  rw [if_pos ⟨hnp, hmk⟩]
  rw [if_pos (le_of_lt hth)]
  exact ⟨rfl, rfl, rfl, by decide⟩

/-- C9 witness classifier state: trained, with a model handle. -/
def c9MLState : MLState :=
  { model_trained := true, model := some { id := 1 } }

/-- C9 witness oracle: identity scaling, predicts class 0 with
probabilities `[0.6, 0.4]`. -/
def c9Oracle : SkOracle :=
  { fitEval := fun _ => .error "unused",
    transform := fun _ v => .ok v,
    predict := fun _ _ => some 0,
    predictProba := fun _ _ => some [0.6, 0.4] }

/-- C9 witness email: marketing-heavy content. -/
def c9Email : EmailData :=
  { sender_email := "news@brand.example", sender_domain := "brand.example",
    subject := "Special offer",
    body := some "Big sale discount offer! Click here to unsubscribe from this newsletter." }

/-- Witness for claim C9 at a concrete trained state, oracle, and
marketing-heavy email under the default configuration. -/
theorem marketing_reroute_witness :
    (c9MLState.sklearn_available = true ∧ c9MLState.model_trained = true
      ∧ c9Oracle.transform c9MLState.scaler
          (features_to_vector c9MLState.feature_names
            (extract_features noPrims c9Email { hour := 10, weekday := 2 } []))
          = .ok (features_to_vector c9MLState.feature_names
            (extract_features noPrims c9Email { hour := 10, weekday := 2 } []))
      ∧ c9Oracle.predict c9MLState.model [] = some 0
      ∧ (0 : Nat) ≠ 1
      ∧ ([0.6, 0.4] : List ℚ) ≠ []
      ∧ ({} : Config).classify_marketing_as_spam = true
      ∧ calculate_marketing_score
          (extract_features noPrims c9Email { hour := 10, weekday := 2 } [])
          > ({} : Config).marketing_confidence_threshold)
    ∧ ((classify noPrims {} c9Oracle { hour := 10, weekday := 2 } [] c9MLState c9Email).1.action
        = "SPAM"
      ∧ (classify noPrims {} c9Oracle { hour := 10, weekday := 2 } [] c9MLState c9Email).1.confidence
        = calculate_marketing_score
            (extract_features noPrims c9Email { hour := 10, weekday := 2 } [])
      ∧ (classify noPrims {} c9Oracle { hour := 10, weekday := 2 } [] c9MLState c9Email).1.method
        = "ml_marketing"
      ∧ "ml_marketing" ≠ "ml_random_forest")
    ∧ (0 ≤ calculate_marketing_score
          (extract_features noPrims c9Email { hour := 10, weekday := 2 } [])
      ∧ calculate_marketing_score
          (extract_features noPrims c9Email { hour := 10, weekday := 2 } []) ≤ 1) :=
  ⟨⟨rfl, rfl, rfl, rfl, by decide, by decide, rfl, by decide⟩,
   (marketing_reroute noPrims {} c9Oracle { hour := 10, weekday := 2 } []
      c9MLState c9Email _ [0.6, 0.4] 0 rfl rfl rfl rfl (by decide) rfl
      (by decide) rfl (by decide)).1,
   (marketing_reroute noPrims {} c9Oracle { hour := 10, weekday := 2 } []
      c9MLState c9Email _ [0.6, 0.4] 0 rfl rfl rfl rfl (by decide) rfl
      (by decide) rfl (by decide)).2⟩

/-! ## Claim C8: schema self-heal -/

/-- Every branch of the post-scaling classification yields a decision whose
action is `SPAM` or `KEEP` (the exception handler included). -/
theorem classify_scaled_action_cases (prims : PyPrims) (cfg : Config)
    (oracle : SkOracle) (st : MLState) (features : Features) (sv : List ℚ) :
    (classify_scaled prims cfg oracle st features sv).action = "SPAM"
    ∨ (classify_scaled prims cfg oracle st features sv).action = "KEEP" := by
  unfold classify_scaled
  split
  · try dsimp only
    split
    · right; rfl
    · try dsimp only
      split
      · split
        · left; rfl
        · try dsimp only
          split
          · left; rfl
          · right; rfl
      · try dsimp only
        split
        · left; rfl
        · right; rfl
  · right; rfl

/-- Source: `classify` always returns a decision (action `SPAM` or `KEEP`): the
untrained fallback, both transform-retry paths, and the exception handler
all produce one. -/
theorem classify_action_cases (prims : PyPrims) (cfg : Config)
    (oracle : SkOracle) (now : PyDateTime) (hist : SenderHistory)
    (st : MLState) (e : EmailData) :
    (classify prims cfg oracle now hist st e).1.action = "SPAM"
    ∨ (classify prims cfg oracle now hist st e).1.action = "KEEP" := by
  unfold classify
  split
  · right; rfl
  · try dsimp only
    split
    · exact classify_scaled_action_cases prims cfg oracle st _ _
    · try dsimp only
      split
      · split
        · exact classify_scaled_action_cases prims cfg oracle _ _ _
        · right; rfl
      · right; rfl

/-- Claim C8: If the persisted scaler was fitted to `N` features or the
persisted feature-name list has length `N`, and the current extractor
produces `M = get_feature_names.length ≠ N` names, then constructing the
classifier triggers a retrain from the built-in default sample set (which
has exactly 10 samples, passing the training floor); when the underlying
fit succeeds the constructed classifier is trained, and any subsequent
`classify` call returns a decision (action `SPAM` or `KEEP`) without
raising. -/
theorem schema_self_heal (prims : PyPrims) (now : PyDateTime)
    (hist : SenderHistory) (oracle : SkOracle) (cfg : Config) (sm : MLModel)
    (sc : Scaler) (sfn : Option (List String))
    (std : Option (List TrainingSample)) (N : Nat) (e : EmailData)
    (fitted : Scaler × MLModel × ℚ)
    (hN : sc.n_features_in_ = some N ∨ sfn.map List.length = some N)
    (hne : N ≠ get_feature_names.length)
    (hfit : oracle.fitEval (create_default_training_data.map (fun s =>
        let features := extract_features prims s.email_data now hist
        (features_to_vector get_feature_names features,
         if s.is_spam then 1 else 0,
         calculate_sample_weight s features))) = .ok fitted) :
    (mk_ml_classifier prims now hist oracle true (some sm) (some sc) sfn std
      = (train_with_samples prims now hist oracle
          { sklearn_available := true, model := some sm, scaler := sc,
            feature_names := get_feature_names, model_trained := false,
            saved_model := some sm, saved_scaler := some sc,
            saved_feature_names := sfn, saved_training_data := std }
          create_default_training_data).2)
    ∧ create_default_training_data.length = 10
    ∧ (mk_ml_classifier prims now hist oracle true (some sm) (some sc) sfn
        std).model_trained = true
    ∧ ((classify prims cfg oracle now hist
          (mk_ml_classifier prims now hist oracle true (some sm) (some sc) sfn std)
          e).1.action = "SPAM"
      ∨ (classify prims cfg oracle now hist
          (mk_ml_classifier prims now hist oracle true (some sm) (some sc) sfn std)
          e).1.action = "KEEP") := by
  have hmk : mk_ml_classifier prims now hist oracle true (some sm) (some sc) sfn std
      = (train_with_samples prims now hist oracle
          { sklearn_available := true, model := some sm, scaler := sc,
            feature_names := get_feature_names, model_trained := false,
            saved_model := some sm, saved_scaler := some sc,
            saved_feature_names := sfn, saved_training_data := std }
          create_default_training_data).2 := by
    unfold mk_ml_classifier
    rw [if_pos rfl]
    unfold load_model
    rw [if_pos (by simp)]
    dsimp only
    rw [if_pos ?hmis]
    case hmis =>
      rcases hN with h | h
      · exact Or.inl ⟨by simp [h], by simp [h]; exact fun hc => hne hc⟩
      · exact Or.inr ⟨by simp [h], by simp [h]; exact fun hc => hne hc⟩
    unfold init_default_model
    rw [if_neg (by simp)]
    rfl
  refine ⟨hmk, by decide, ?_, ?_⟩
  · rw [hmk]
    unfold train_with_samples
    rw [if_neg (by simp), if_neg (by decide)]
    dsimp only
    rw [hfit]
  · exact classify_action_cases prims cfg oracle now hist _ e

/-- C8 witness: a persisted scaler fitted to 3 features while the current
extractor produces 79. -/
def c8Scaler : Scaler := { n_features_in_ := some 3 }

/-- C8 witness: the persisted model blob. -/
def c8Model : MLModel := { id := 7 }

/-- Witness for claim C8 at a concrete mismatched artifact and a succeeding
fit oracle. -/
theorem schema_self_heal_witness :
    (c8Scaler.n_features_in_ = some 3
      ∧ (3 : Nat) ≠ get_feature_names.length
      ∧ okOracle.fitEval (create_default_training_data.map (fun s =>
          let features := extract_features noPrims s.email_data
            { hour := 0, weekday := 0 } []
          (features_to_vector get_feature_names features,
           if s.is_spam then 1 else 0,
           calculate_sample_weight s features)))
        = .ok ({ n_features_in_ := some get_feature_names.length },
            { id := 1 }, 1))
    ∧ (mk_ml_classifier noPrims { hour := 0, weekday := 0 } [] okOracle true
        (some c8Model) (some c8Scaler) none none
      = (train_with_samples noPrims { hour := 0, weekday := 0 } [] okOracle
          { sklearn_available := true, model := some c8Model,
            scaler := c8Scaler, feature_names := get_feature_names,
            model_trained := false, saved_model := some c8Model,
            saved_scaler := some c8Scaler, saved_feature_names := none,
            saved_training_data := none }
          create_default_training_data).2)
    ∧ create_default_training_data.length = 10
    ∧ (mk_ml_classifier noPrims { hour := 0, weekday := 0 } [] okOracle true
        (some c8Model) (some c8Scaler) none none).model_trained = true
    ∧ ((classify noPrims {} okOracle { hour := 0, weekday := 0 } []
          (mk_ml_classifier noPrims { hour := 0, weekday := 0 } [] okOracle
            true (some c8Model) (some c8Scaler) none none)
          { sender_email := "a@b.c" }).1.action = "SPAM"
      ∨ (classify noPrims {} okOracle { hour := 0, weekday := 0 } []
          (mk_ml_classifier noPrims { hour := 0, weekday := 0 } [] okOracle
            true (some c8Model) (some c8Scaler) none none)
          { sender_email := "a@b.c" }).1.action = "KEEP") := by
  have h := schema_self_heal noPrims { hour := 0, weekday := 0 } [] okOracle
    {} c8Model c8Scaler none none 3 { sender_email := "a@b.c" }
    ({ n_features_in_ := some get_feature_names.length }, { id := 1 }, 1)
    (Or.inl rfl) (by decide) rfl
  exact ⟨⟨rfl, by decide, rfl⟩, h.1, h.2.1, h.2.2.1, h.2.2.2⟩

/-! ## Claim C5: feature-extraction determinism -/

/-- The feature keys whose values read program state: the sender-history
group (history store and, for `sender_days_since_first`, the clock), the
temporal group (the clock, when the message offers no usable timestamp),
and the interaction feature derived from the recurring-spammer flag. -/
def stateful_feature_keys : List String :=
  ["sender_spam_ratio", "sender_total_feedbacks", "sender_days_since_first",
   "sender_is_recurring_spammer", "sender_is_recurring_ham",
   "temporal_hour_of_day", "temporal_day_of_week", "temporal_is_weekend",
   "temporal_is_night_time", "temporal_is_business_hours",
   "interaction_spammer_suspicious"]

/-- Outside the sender-history and temporal key groups, the pre-interaction
feature dict does not depend on the clock or the history snapshot. -/
theorem pre_lookup_stable (prims : PyPrims) (e : EmailData)
    (n1 n2 : PyDateTime) (h1 h2 : SenderHistory) (k : String)
    (hh : k ∉ ["sender_spam_ratio", "sender_total_feedbacks",
       "sender_days_since_first", "sender_is_recurring_spammer",
       "sender_is_recurring_ham"])
    (ht : k ∉ ["temporal_hour_of_day", "temporal_day_of_week",
       "temporal_is_weekend", "temporal_is_night_time",
       "temporal_is_business_hours"]) :
    (pre_interaction_features prims e n1 h1).lookup k
      = (pre_interaction_features prims e n2 h2).lookup k := by
  unfold pre_interaction_features
  simp only [lookup_append]
  rw [lookup_eq_none_of_keys k _ _ (sender_history_keys prims e n1 h1) hh,
    lookup_eq_none_of_keys k _ _ (sender_history_keys prims e n2 h2) hh,
    lookup_eq_none_of_keys k _ _ (temporal_keys prims e n1) ht,
    lookup_eq_none_of_keys k _ _ (temporal_keys prims e n2) ht]

/-- Source: `featGet` version of `pre_lookup_stable`. -/
theorem pre_featGet_stable (prims : PyPrims) (e : EmailData)
    (n1 n2 : PyDateTime) (h1 h2 : SenderHistory) (k : String)
    (hh : k ∉ ["sender_spam_ratio", "sender_total_feedbacks",
       "sender_days_since_first", "sender_is_recurring_spammer",
       "sender_is_recurring_ham"])
    (ht : k ∉ ["temporal_hour_of_day", "temporal_day_of_week",
       "temporal_is_weekend", "temporal_is_night_time",
       "temporal_is_business_hours"]) :
    featGet (pre_interaction_features prims e n1 h1) k 0
      = featGet (pre_interaction_features prims e n2 h2) k 0 := by
  unfold featGet
  rw [pre_lookup_stable prims e n1 n2 h1 h2 k hh ht]

/-- The interaction features other than `interaction_spammer_suspicious`
agree whenever the underlying feature dicts agree on the ten inputs they
read. -/
theorem interaction_lookup_stable (fs1 fs2 : Features) (k : String)
    (hk : k ≠ "interaction_spammer_suspicious")
    (hmk : featGet fs1 "content_marketing_keywords" 0
      = featGet fs2 "content_marketing_keywords" 0)
    (hnp : featGet fs1 "content_newsletter_phrases" 0
      = featGet fs2 "content_newsletter_phrases" 0)
    (hsus : featGet fs1 "content_suspicious_keywords" 0
      = featGet fs2 "content_suspicious_keywords" 0)
    (hspf : featGet fs1 "auth_spf_pass" 0 = featGet fs2 "auth_spf_pass" 0)
    (hdkim : featGet fs1 "auth_dkim_pass" 0 = featGet fs2 "auth_dkim_pass" 0)
    (hdmarc : featGet fs1 "auth_dmarc_pass" 0
      = featGet fs2 "auth_dmarc_pass" 0)
    (hurg : featGet fs1 "content_urgency_keywords" 0
      = featGet fs2 "content_urgency_keywords" 0)
    (hmon : featGet fs1 "content_money_keywords" 0
      = featGet fs2 "content_money_keywords" 0)
    (hcaps : featGet fs1 "subject_caps_ratio" 0
      = featGet fs2 "subject_caps_ratio" 0)
    (hexc : featGet fs1 "subject_exclamation_count" 0
      = featGet fs2 "subject_exclamation_count" 0) :
    (extract_interaction_features fs1).lookup k
      = (extract_interaction_features fs2).lookup k := by
  simp only [extract_interaction_features]
  by_cases e1 : k = "interaction_marketing_newsletter"
  · subst e1
    rw [lookup_cons_eq, lookup_cons_eq, hmk, hnp]
  rw [lookup_cons_ne _ _ _ _ e1, lookup_cons_ne _ _ _ _ e1]
  by_cases e2 : k = "interaction_suspicious_no_auth"
  · subst e2
    rw [lookup_cons_eq, lookup_cons_eq, hsus, hspf, hdkim, hdmarc]
  rw [lookup_cons_ne _ _ _ _ e2, lookup_cons_ne _ _ _ _ e2]
  by_cases e3 : k = "interaction_urgency_money"
  · subst e3
    rw [lookup_cons_eq, lookup_cons_eq, hurg, hmon]
  rw [lookup_cons_ne _ _ _ _ e3, lookup_cons_ne _ _ _ _ e3]
  rw [lookup_cons_ne _ _ _ _ hk, lookup_cons_ne _ _ _ _ hk]
  by_cases e5 : k = "interaction_shouting"
  · subst e5
    rw [lookup_cons_eq, lookup_cons_eq, hcaps, hexc]
  rw [lookup_cons_ne _ _ _ _ e5, lookup_cons_ne _ _ _ _ e5]

/-- The C5 counterexample email: no timestamp or date field, so the
temporal features read the clock; body contains a suspicious keyword. -/
def c5Email : EmailData :=
  { sender_email := "a@b.com", subject := "hi",
    body := some "please verify account" }

/-- The C5 counterexample sender-history snapshot: the sender has 5 spam
feedbacks on record. -/
def c5Hist : SenderHistory := [("a@b.com", { spam_count := 5, ham_count := 0 })]

/-- Claim C5 counterexample: `extract_features` on the identical message
yields different dictionaries in different program states: calling at
clock hour 3 vs hour 12 changes `temporal_hour_of_day`, and calling under
a different sender-history store changes `sender_is_recurring_spammer`.
This refutes "two calls with identical input, in any program state,
produce identical feature dictionaries". -/
theorem extract_determinism_counterexample :
    (extract_features noPrims c5Email { hour := 3, weekday := 0 } []
      ≠ extract_features noPrims c5Email { hour := 12, weekday := 0 } [])
    ∧ (extract_features noPrims c5Email { hour := 3, weekday := 0 } []
      ≠ extract_features noPrims c5Email { hour := 3, weekday := 0 } c5Hist)
    ∧ featGet (extract_features noPrims c5Email { hour := 3, weekday := 0 } [])
        "temporal_hour_of_day" 0 = 3
    ∧ featGet (extract_features noPrims c5Email { hour := 12, weekday := 0 } [])
        "temporal_hour_of_day" 0 = 12
    ∧ featGet (extract_features noPrims c5Email { hour := 3, weekday := 0 } [])
        "sender_is_recurring_spammer" 0 = 0
    ∧ featGet (extract_features noPrims c5Email { hour := 3, weekday := 0 } c5Hist)
        "sender_is_recurring_spammer" 0 = 1 :=
  ⟨by decide, by decide, by decide, by decide, by decide, by decide⟩

set_option maxHeartbeats 1000000 in
/-- Claim C5 as amended: Feature extraction is deterministic up to the
state-reading features: across any two program states (clock values and
sender-history snapshots), the two dictionaries have identical keys, and
identical values at every feature outside `stateful_feature_keys` (the
sender-history group, the temporal group, and the spammer-interaction
feature, which are functions of the clock and the history store). -/
theorem extract_features_stateless_determinism (prims : PyPrims)
    (e : EmailData) (n1 n2 : PyDateTime) (h1 h2 : SenderHistory) (k : String)
    (hk : k ∉ stateful_feature_keys) :
    (extract_features prims e n1 h1).map Prod.fst
        = (extract_features prims e n2 h2).map Prod.fst
    ∧ (extract_features prims e n1 h1).lookup k
        = (extract_features prims e n2 h2).lookup k := by
  have hh : k ∉ ["sender_spam_ratio", "sender_total_feedbacks",
      "sender_days_since_first", "sender_is_recurring_spammer",
      "sender_is_recurring_ham"] := by
    intro hmem
    exact hk ((by decide : ∀ x ∈ (["sender_spam_ratio",
      "sender_total_feedbacks", "sender_days_since_first",
      "sender_is_recurring_spammer", "sender_is_recurring_ham"] : List String),
        x ∈ stateful_feature_keys) k hmem)
  have ht : k ∉ ["temporal_hour_of_day", "temporal_day_of_week",
      "temporal_is_weekend", "temporal_is_night_time",
      "temporal_is_business_hours"] := by
    intro hmem
    exact hk ((by decide : ∀ x ∈ (["temporal_hour_of_day",
      "temporal_day_of_week", "temporal_is_weekend",
      "temporal_is_night_time", "temporal_is_business_hours"] : List String),
        x ∈ stateful_feature_keys) k hmem)
  constructor
  · show ((pre_interaction_features prims e n1 h1)
        ++ extract_interaction_features (pre_interaction_features prims e n1 h1)).map Prod.fst
      = ((pre_interaction_features prims e n2 h2)
        ++ extract_interaction_features (pre_interaction_features prims e n2 h2)).map Prod.fst
    simp only [List.map_append, interaction_keys]
    unfold pre_interaction_features
    simp only [List.map_append]
    rw [sender_history_keys prims e n1 h1, sender_history_keys prims e n2 h2,
      temporal_keys prims e n1, temporal_keys prims e n2]
  · have hpre := pre_lookup_stable prims e n1 n2 h1 h2 k hh ht
    show ((pre_interaction_features prims e n1 h1)
        ++ extract_interaction_features (pre_interaction_features prims e n1 h1)).lookup k
      = ((pre_interaction_features prims e n2 h2)
        ++ extract_interaction_features (pre_interaction_features prims e n2 h2)).lookup k
    rw [lookup_append, lookup_append, hpre]
    cases hl : (pre_interaction_features prims e n2 h2).lookup k with
    | some v => rfl
    | none =>
      dsimp only [Option.orElse]
      exact interaction_lookup_stable _ _ k
        (fun h => hk (by rw [h]; decide))
        (pre_featGet_stable prims e n1 n2 h1 h2 _ (by decide) (by decide))
        (pre_featGet_stable prims e n1 n2 h1 h2 _ (by decide) (by decide))
        (pre_featGet_stable prims e n1 n2 h1 h2 _ (by decide) (by decide))
        (pre_featGet_stable prims e n1 n2 h1 h2 _ (by decide) (by decide))
        (pre_featGet_stable prims e n1 n2 h1 h2 _ (by decide) (by decide))
        (pre_featGet_stable prims e n1 n2 h1 h2 _ (by decide) (by decide))
        (pre_featGet_stable prims e n1 n2 h1 h2 _ (by decide) (by decide))
        (pre_featGet_stable prims e n1 n2 h1 h2 _ (by decide) (by decide))
        (pre_featGet_stable prims e n1 n2 h1 h2 _ (by decide) (by decide))
        (pre_featGet_stable prims e n1 n2 h1 h2 _ (by decide) (by decide))

/-- Witness for claim C5 as amended: the stateless key `subject_length` looks
up identically across the two program states of the counterexample. -/
theorem extract_features_stateless_determinism_witness :
    ("subject_length" ∉ stateful_feature_keys)
    ∧ (extract_features noPrims c5Email { hour := 3, weekday := 0 } []).map Prod.fst
        = (extract_features noPrims c5Email { hour := 12, weekday := 0 } c5Hist).map Prod.fst
    ∧ (extract_features noPrims c5Email { hour := 3, weekday := 0 } []).lookup "subject_length"
        = (extract_features noPrims c5Email { hour := 12, weekday := 0 } c5Hist).lookup "subject_length" :=
  ⟨by decide,
   (extract_features_stateless_determinism noPrims c5Email
     { hour := 3, weekday := 0 } { hour := 12, weekday := 0 } [] c5Hist
     "subject_length" (by decide)).1,
   (extract_features_stateless_determinism noPrims c5Email
     { hour := 3, weekday := 0 } { hour := 12, weekday := 0 } [] c5Hist
     "subject_length" (by decide)).2⟩

end PyAntiSpam
